import Mathlib

/-!
Verification of the thesis-checker core (structural extractor + rule engine).

The Python sources are shallowly embedded below.  Conventions of the
embedding:

* Python `str` values become Lean `String`/`List Char`; regular expressions
  are translated to explicit character-list parsers that implement the same
  (deterministic) matching behaviour, analysed case by case at the
  definition site.
* Unicode NFKC normalisation (`unicodedata.normalize("NFKC", s)`) is the
  identity on the character data handled here and is modelled as the
  identity map; `str.lower()` additionally lowers the German umlauts.
* Python `\s` is modelled by `isPySpace` (ASCII whitespace plus the
  non-breaking space), Python `\w` by `isWordChar` (ASCII alphanumerics,
  underscore and German letters).
* Dictionaries become insertion-ordered association lists; Python `set`
  iteration (whose order is unspecified) only occurs over keyword sets with
  pairwise distinct keywords, where the order cannot affect the result.
-/

/-! ## Character classes and basic string helpers -/

/-- Python `str.lower` on the characters appearing in this code base:
ASCII lowering plus the German umlauts. -/
def pyLowerChar (c : Char) : Char :=
  if c = 'Ä' then 'ä' else if c = 'Ö' then 'ö' else if c = 'Ü' then 'ü'
  else c.toLower

def pyUpperChar (c : Char) : Char :=
  if c = 'ä' then 'Ä' else if c = 'ö' then 'Ö' else if c = 'ü' then 'Ü'
  else c.toUpper

def pyLower (s : String) : String := ⟨s.data.map pyLowerChar⟩

/-- Python regex `\s` (whitespace), restricted to the characters relevant
here: ASCII whitespace and the non-breaking space. -/
def isPySpace (c : Char) : Bool :=
  c == ' ' || c == '\t' || c == '\n' || c == '\r' ||
  c == '\x0b' || c == '\x0c' || c == ' '

/-- Python regex `\w`: letters, digits, underscore (German letters included). -/
def isWordChar (c : Char) : Bool :=
  c.isAlpha || c.isDigit || c == '_' ||
  c == 'ä' || c == 'ö' || c == 'ü' || c == 'ß' ||
  c == 'Ä' || c == 'Ö' || c == 'Ü'

/-- The character class `[a-zäöüß]` used by the TOC-line heuristics. -/
def isLowerGerman (c : Char) : Bool :=
  ('a' ≤ c && c ≤ 'z') || c == 'ä' || c == 'ö' || c == 'ü' || c == 'ß'

/-- The character class `[A-ZÄÖÜ]` (author-year citation start). -/
def isUpperGerman (c : Char) : Bool :=
  ('A' ≤ c && c ≤ 'Z') || c == 'Ä' || c == 'Ö' || c == 'Ü'

/-- The character class `[A-Za-zÄÖÜäöüß\-]` of the author-year regex. -/
def isAuthorChar (c : Char) : Bool :=
  ('A' ≤ c && c ≤ 'Z') || ('a' ≤ c && c ≤ 'z') ||
  c == 'Ä' || c == 'Ö' || c == 'Ü' || c == 'ä' || c == 'ö' || c == 'ü' ||
  c == 'ß' || c == '-'

/-- Strip leading and trailing characters satisfying `p` (Python `str.strip`). -/
def stripChars (p : Char → Bool) (cs : List Char) : List Char :=
  ((cs.dropWhile p).reverse.dropWhile p).reverse

/-- Python `str.strip()` (whitespace strip). -/
def pyStrip (s : String) : String := ⟨stripChars isPySpace s.data⟩

/-- Collapse every run of whitespace to a single `' '`
(the effect of `re.sub(r"\s+", " ", s)`).  The flag records whether the
previous character was whitespace. -/
def collapseWsGo : List Char → Bool → List Char
  | [], _ => []
  | c :: rest, prevWs =>
    if isPySpace c then
      if prevWs then collapseWsGo rest true else ' ' :: collapseWsGo rest true
    else c :: collapseWsGo rest false

def collapseWs (cs : List Char) : List Char := collapseWsGo cs false

/-- `s.replace(" ", " ")`. -/
def replaceNbsp (s : String) : String :=
  ⟨s.data.map (fun c => if c == ' ' then ' ' else c)⟩

/-- Count of Python `\w+` matches, i.e. of maximal word-character runs
(`_word_count` in `docx_extractor.py`). -/
def countWordRunsGo : List Char → Bool → Nat
  | [], _ => 0
  | c :: rest, inRun =>
    if isWordChar c then
      (if inRun then 0 else 1) + countWordRunsGo rest true
    else countWordRunsGo rest false

def wordCount (s : String) : Nat := countWordRunsGo s.data false

/-- `s.count(c)` for a single character. -/
def countCharStr (s : String) (c : Char) : Nat :=
  (s.data.filter (fun x => x == c)).length

/-- Index of the first element satisfying `p` (the `enumerate`/`break`
pattern used throughout the Python code). -/
def firstIdx (p : String → Bool) : List String → Option Nat
  | [] => none
  | x :: xs => if p x then some 0 else (firstIdx p xs).map (fun i => i + 1)

/-- Strict lexicographic comparison of character lists (Python `str <`). -/
def charListLt : List Char → List Char → Bool
  | [], [] => false
  | [], _ :: _ => true
  | _ :: _, [] => false
  | a :: as, b :: bs => if a < b then true else if b < a then false else charListLt as bs

/-- Stable insertion used by `pySortStrings`. -/
def insStr (x : String) : List String → List String
  | [] => [x]
  | y :: ys => if charListLt x.data y.data then x :: y :: ys else y :: insStr x ys

/-- Python `sorted` on strings (stable, lexicographic by code point). -/
def pySortStrings (l : List String) : List String :=
  l.foldl (fun acc x => insStr x acc) []

/-- Stable deduplication (first occurrence wins), the effect of the
`seen`-set pattern in `_expand_numeric_block` and of `dict.fromkeys`. -/
def stableDedup (l : List String) : List String :=
  l.foldl (fun acc x => if acc.contains x then acc else acc ++ [x]) []

/-- `sorted(set(l))`. -/
def pySortedSet (l : List String) : List String := pySortStrings (stableDedup l)

/-- `', '.join(l) or 'keine'`. -/
def joinOrKeine (l : List String) : String :=
  let s := String.intercalate ", " l
  if s = "" then "keine" else s

/-- Python `s.split(sep)` for a one-character separator (all `split`
calls in the sources use `"."`, `" "` or line splitting). -/
def pySplitCharGo (sep : Char) : List Char → List Char → List String
  | [], cur => [⟨cur.reverse⟩]
  | c :: rest, cur =>
    if c == sep then (⟨cur.reverse⟩ : String) :: pySplitCharGo sep rest []
    else pySplitCharGo sep rest (c :: cur)

def pySplitChar (sep : Char) (s : String) : List String :=
  pySplitCharGo sep s.data []

/-- `str.startswith` on character lists. -/
def listStartsWith : List Char → List Char → Bool
  | [], _ => true
  | _ :: _, [] => false
  | a :: as, b :: bs => a == b && listStartsWith as bs

/-- A word-boundary search `re.search(r"\b<w>\b", t)`: `w` occurs in `t`
with no word character directly before or after the occurrence. -/
def isWordCharAt (cs : List Char) (j : Nat) : Bool :=
  match cs.get? j with
  | some c => isWordChar c
  | none => false

/-- Python substring containment `needle in hay` on character lists. -/
def listContainsSub (needle hay : List Char) : Bool :=
  (List.range (hay.length + 1)).any
    (fun i => (hay.drop i).take needle.length == needle)

def containsWord (t w : String) : Bool :=
  let cs := t.data
  let ws := w.data
  (List.range (cs.length + 1)).any (fun i =>
    ((cs.drop i).take ws.length == ws) &&
    (i == 0 || !(isWordCharAt cs (i - 1))) &&
    (!(isWordCharAt cs (i + ws.length))))

/-! ## Normalisation (`_normalize_simple`, `_normalize_title`) -/

/-- `_normalize_simple`: NFKC (identity here), NBSP→space, collapse
whitespace, strip, lower. -/
def normalize_simple (s : String) : String :=
  pyLower (pyStrip ⟨collapseWs (replaceNbsp s).data⟩)

/-- Consume the `(\.\d+)*` groups of the leading-number regexes; returns the
unconsumed remainder.  Greedy matching is deterministic here because a
failed group (`.` not followed by a digit) cannot be rescued by taking
fewer digits in a previous group.  Fuel is the input length. -/
def munchDotGroups : Nat → List Char → List Char
  | 0, cs => cs
  | fuel + 1, cs =>
    match cs with
    | '.' :: rest =>
      if (rest.headD ' ').isDigit then
        munchDotGroups fuel (rest.dropWhile Char.isDigit)
      else cs
    | _ => cs

/-- Remainder after the leading-number prefix
`^\s*\d+(?:\.\d+)*\s*[\.\)]?\s*` of `_normalize_title`; if no digit is
found the whole input is returned unchanged (the regex then has no match
and `re.sub` leaves the string alone). -/
def stripLeadingNumber (cs : List Char) : List Char :=
  let a := cs.dropWhile isPySpace
  let ds := a.takeWhile Char.isDigit
  if ds.isEmpty then cs
  else
    let r1 := munchDotGroups a.length (a.dropWhile Char.isDigit)
    let r2 := r1.dropWhile isPySpace
    let r3 := match r2 with
      | c :: rest => if c == '.' || c == ')' then rest else r2
      | [] => r2
    r3.dropWhile isPySpace

/-- Characters of the trailing-punctuation class `[\s:;.\-–—]` of
`_normalize_title`. -/
def isTrailPunct (c : Char) : Bool :=
  isPySpace c || c == ':' || c == ';' || c == '.' || c == '-' ||
  c == '–' || c == '—'

/-- `_normalize_title`: NFKC (identity here), NBSP→space, strip, lower,
strip a leading outline number, strip trailing punctuation, collapse
whitespace, strip. -/
def normalize_title (title : String) : String :=
  let t1 := pyLower (pyStrip (replaceNbsp title))
  let t2 := stripLeadingNumber t1.data
  let t3 := stripChars isPySpace ((stripChars isTrailPunct t2))
  ⟨stripChars isPySpace (collapseWs t3)⟩

/-! ## `NUMBERING_RE` and number-shape parsers -/

/-- Match of `NUMBERING_RE = ^\s*(\d+(?:\.\d+)*)(?:\.)?\s+(.+)$` against a
paragraph text, returning `(number, raw title)`.  The optional dot is
consumed exactly when it is followed by whitespace; `\s+(.+)$` on the
remainder `r` succeeds iff `r` starts with whitespace and has at least two
characters (if everything after the leading whitespace is empty, `.+`
backtracks to take the final whitespace character). -/
def parseNumbering (text : String) : Option (String × String) :=
  let cs := text.data
  let a := cs.dropWhile isPySpace
  let ds := a.takeWhile Char.isDigit
  if ds.isEmpty then none
  else
    let r2 := munchDotGroups a.length (a.dropWhile Char.isDigit)
    let numberChars := a.take (a.length - r2.length)
    let r3 := match r2 with
      | '.' :: rest => if isPySpace (rest.headD 'x') then rest else r2
      | _ => r2
    if isPySpace (r3.headD 'x') ∧ 2 ≤ r3.length then
      let t0 := r3.dropWhile isPySpace
      let titleChars := if t0.isEmpty then r3.drop (r3.length - 1) else t0
      some (⟨numberChars⟩, ⟨titleChars⟩)
    else none

/-- Match of `^\s*(\d+(?:\.\d+)*)(?:\.)?\s+` (number prefix only, used by
`numbering_rules._get_heading_number_str`), returning the number group. -/
def parseLeadingNumberOnly (text : String) : Option String :=
  let cs := text.data
  let a := cs.dropWhile isPySpace
  let ds := a.takeWhile Char.isDigit
  if ds.isEmpty then none
  else
    let r2 := munchDotGroups a.length (a.dropWhile Char.isDigit)
    let numberChars := a.take (a.length - r2.length)
    let r3 := match r2 with
      | '.' :: rest => if isPySpace (rest.headD 'x') then rest else r2
      | _ => r2
    if isPySpace (r3.headD 'x') then some ⟨numberChars⟩ else none

/-- Full match of `^\d+(\.\d+)*$` (the shape test of
`numbering_rules._parse_num` and of the TOC token heuristics). -/
def numberShaped (s : String) : Bool :=
  let cs := s.data
  let ds := cs.takeWhile Char.isDigit
  !ds.isEmpty && (munchDotGroups cs.length (cs.dropWhile Char.isDigit)).isEmpty

/-- A `\d{1,4}` page-number token (all digits, length 1..4). -/
def pageNumShaped (s : String) : Bool :=
  decide (1 ≤ s.length) && decide (s.length ≤ 4) && s.data.all Char.isDigit

/-! ## `_looks_like_toc_line` -/

/-- `_looks_like_toc_line`.  On the normalised text `t` (lower case, single
spaces, stripped) the four regex alternatives are equivalent to the token
conditions implemented here; each equivalence is justified in the comment
above the corresponding condition.

* `"...."`/`\.{3,}`: `t` contains three consecutive dots.
* `^\d+(\.\d+)*[a-zäöüß].*\d{1,4}$`: after greedily consuming the leading
  number, the next character is a lower-case letter and the final character
  of `t` is a digit (backtracking cannot move the letter position, and
  `.*\d{1,4}$` is equivalent to "ends in a digit").
* `^\d+(\.\d+)*\s+.+\s+\d{1,4}$`: on single-spaced text this holds iff
  there are at least 3 space-separated tokens, the first token is exactly
  number-shaped and the last is a 1-4 digit page number.
* `^[a-zäöüß].+\s+\d{1,4}$`: first character is a lower-case letter, the
  last token is a 1-4 digit page number, and there is at least one
  character between the first character and the final space (first token
  of length ≥ 2, or at least 3 tokens). -/
def looks_like_toc_line (p : String) : Bool :=
  let t := normalize_simple p
  if t = "" then false
  else
    let cs := t.data
    if listContainsSub ['.', '.', '.'] cs then true
    else
      let ds := cs.takeWhile Char.isDigit
      let p2 :=
        !ds.isEmpty &&
        (match munchDotGroups cs.length (cs.dropWhile Char.isDigit) with
         | c :: _ => isLowerGerman c
         | [] => false) &&
        (match cs.getLast? with
         | some d => d.isDigit
         | none => false)
      if p2 then true
      else
        let toks := pySplitChar ' ' t
        let p3 := decide (3 ≤ toks.length) && numberShaped (toks.headD "") &&
                  pageNumShaped (toks.getLastD "")
        if p3 then true
        else
          (match cs with
           | c :: _ => isLowerGerman c
           | [] => false) &&
          decide (2 ≤ toks.length) && pageNumShaped (toks.getLastD "") &&
          (decide (2 ≤ (toks.headD "").length) || decide (3 ≤ toks.length))

/-! ## `_find_toc_range` -/

/-- The window inspected at scan position `j`:
`[x for x in paragraphs[j : min(max_scan, j + 8)] if _normalize_simple(x)]`. -/
def tocWindow (ps : List String) (maxScan j : Nat) : List String :=
  ((ps.drop j).take (min (maxScan - j) 8)).filter
    (fun x => !(normalize_simple x == ""))

/-- Number of non-TOC-like paragraphs in the window at `j`. -/
def tocNonTocCount (ps : List String) (maxScan j : Nat) : Nat :=
  ((tocWindow ps maxScan j).filter (fun x => !looks_like_toc_line x)).length

/-- The scan loop `for j in range(toc_start + 1, max_scan)`.  `fuel` is
`maxScan - j`, so the loop ends exactly when `j` reaches `maxScan`; the
fallback then caps the range at `tocStart + 250`. -/
def tocScanGo (ps : List String) (maxScan tocStart : Nat) : Nat → Nat → Nat
  | 0, _ => min ps.length (tocStart + 250)
  | fuel + 1, j =>
    let w := tocWindow ps maxScan j
    if w.isEmpty then tocScanGo ps maxScan tocStart fuel (j + 1)
    else if 5 ≤ tocNonTocCount ps maxScan j then j
    else tocScanGo ps maxScan tocStart fuel (j + 1)

/-- `_find_toc_range`. -/
def find_toc_range (ps : List String) : Option (Nat × Nat) :=
  match firstIdx (fun p => normalize_simple p == "inhaltsverzeichnis") ps with
  | none => none
  | some s =>
    let maxScan := min ps.length (s + 500)
    some (s, tocScanGo ps maxScan s (maxScan - (s + 1)) (s + 1))

/-! ## Section keywords and `_find_section_key` -/

/-- `SECTION_KEYWORDS` in its source (dict insertion) order. -/
def SECTION_KEYWORDS : List (String × List String) := [
  ("abstract", ["abstract", "kurzfassung", "executive summary"]),
  ("abkuerzungen",
    ["abkürzungsverzeichnis", "abkuerzungsverzeichnis", "abkürzungen",
     "abkuerzungen", "list of abbreviations", "abbreviations"]),
  ("einleitung", ["einleitung", "introduction"]),
  ("theorie",
    ["theorie", "grundlagen", "theoretische grundlagen",
     "theoretischer hintergrund", "stand der forschung", "forschungsstand",
     "background", "theoretical background"]),
  ("methode", ["methode", "methodik", "methods", "methodology"]),
  ("ergebnisse", ["ergebnisse", "results"]),
  ("diskussion", ["diskussion", "discussion"]),
  ("fazit",
    ["fazit", "schluss", "schlussfolgerung", "schlussfolgerungen",
     "zusammenfassung", "conclusion", "conclusions", "summary", "ausblick"]),
  ("literatur",
    ["literaturverzeichnis", "references", "bibliography",
     "quellenverzeichnis", "quellen"])]

/-- `STRICT_ONLY_KEYS`.  The Python value is a `set` whose iteration order
is unspecified; since no normalised title equals keywords of two distinct
keys, any fixed order yields the same result, and we keep the literal
order of the source. -/
def STRICT_ONLY_KEYS : List String :=
  ["literatur", "ergebnisse", "diskussion", "abstract", "abkuerzungen"]

def PREFIX_OK_KEYS : List String := ["einleitung", "theorie", "methode", "fazit"]

/-- `SECTION_KEYWORDS.get(key, [])`. -/
def keywordsOf (key : String) : List String :=
  ((SECTION_KEYWORDS.find? (fun p => p.1 == key)).map (fun p => p.2)).getD []

/-- The `is_top_level` computation of `_find_section_key`
(`level == 1` or `number.isdigit()`). -/
def isTopLevelOf (level : Option Nat) (number : Option String) : Bool :=
  level == some 1 ||
  (match number with
   | some s => !(s == "") && s.data.all Char.isDigit
   | none => false)

/-- The words of the step-4 theory regex
`\b(theorie|grundlagen|theoretisch|forschungsstand|stand der forschung|background)\b`. -/
def theorieWords : List String :=
  ["theorie", "grundlagen", "theoretisch", "forschungsstand",
   "stand der forschung", "background"]

/-- Step 1 of `_find_section_key`: exact match against the strict-only
keys. -/
def strictExactKey (t : String) : Option String :=
  STRICT_ONLY_KEYS.find? (fun key =>
    (keywordsOf key).any (fun kw => t == normalize_title kw))

/-- Step 2: exact match against the remaining keys (dict order, strict
keys skipped). -/
def otherExactKey (t : String) : Option String :=
  ((SECTION_KEYWORDS.filter
      (fun p => !(STRICT_ONLY_KEYS.contains p.1))).find?
      (fun p => p.2.any (fun kw => t == normalize_title kw))).map
    (fun p => p.1)

/-- Step 3: prefix match (`startswith keyword + " "`) for the
prefix-allowed keys. -/
def prefixMatchKey (t : String) : Option String :=
  PREFIX_OK_KEYS.find? (fun key =>
    (keywordsOf key).any (fun kw =>
      let kwn := normalize_title kw
      !(kwn == "") && listStartsWith (kwn ++ " ").data t.data))

/-- Step 4: the theory-word catch-all regex. -/
def theorieHit (t : String) : Bool :=
  theorieWords.any (fun w => containsWord t w)

/-- `_find_section_key`. -/
def find_section_key (title : String) (level : Option Nat)
    (number : Option String) : Option String :=
  let t := normalize_title title
  if t = "" then none
  else if containsWord t "literaturrecherche" then none
  else
    match strictExactKey t with
    | some key => some key
    | none =>
      match otherExactKey t with
      | some key => some key
      | none =>
        if isTopLevelOf level number then
          match prefixMatchKey t with
          | some key => some key
          | none => if theorieHit t then some "theorie" else none
        else none

/-! ## Data model

The `Heading`/`Section`/`CitationSignals`/`DocumentModel`/`Finding`
dataclasses live in the repository's `models` package, which is not part of
the provided sources; their fields are modelled from the spec (section 3)
and from every construction site in the provided code. -/

structure Heading where
  text : String
  level : Nat
  number : Option String
  para_index : Nat
deriving DecidableEq, Repr

structure Section where
  key : String
  title : String
  start_para : Nat
  end_para : Nat
  text : String
  word_count : Nat
deriving DecidableEq, Repr

structure CitationSignals where
  numeric_count : Nat
  author_year_count : Nat
  etal_count : Nat
deriving DecidableEq, Repr

structure DocumentModel where
  filename : String
  paragraphs : List String
  headings : List Heading
  sections : List (String × Section)
  word_count_total : Nat
  tables_count : Nat
  figure_refs : List String
  table_refs : List String
  citations : CitationSignals
deriving Repr

structure AIAnnotations where
  research_question : Option String
deriving Repr

structure Finding where
  rule_id : String
  category : String
  severity : String
  message : String
  evidence : Option String
deriving DecidableEq, Repr

/-- Python truthiness of an optional string (`None` and `""` are falsy). -/
def optStrTruthy : Option String → Bool
  | some s => !(s == "")
  | none => false

/-- `doc.sections.get(key)` (the dict built by `_build_sections` has unique
keys; on association lists the first binding is returned). -/
def sectionsGet (doc : DocumentModel) (key : String) : Option Section :=
  ((doc.sections.find? (fun kv => kv.1 == key)).map (fun kv => kv.2))

/-- `ai.research_question if (ai and ai.research_question) else None`. -/
def aiRQ : Option AIAnnotations → Option String
  | some a =>
    match a.research_question with
    | some s => if s = "" then none else some s
    | none => none
  | none => none

/-! ## Body walker (`_walk_body_paragraphs`)

The XML body is modelled as a forest of nodes: paragraphs (`w:p`, carrying
the data `_p_text`/`_p_style`/`_p_ilvl` would extract), tables (`w:tbl`)
and any other container element.  `ParaData.text` is the result of
`_p_text` (runs concatenated, NFKC, NBSP→space, stripped) and
`ParaData.style` the raw `w:pStyle/@w:val` attribute value; both
extractions are I/O-level and form the boundary of the embedding. -/

structure ParaData where
  text : String
  style : String
  ilvl : Option Int
deriving DecidableEq, Repr

mutual
inductive XNode where
  | para : ParaData → XNode
  | tbl : XForest → XNode
  | other : XForest → XNode
deriving Repr

inductive XForest where
  | nil : XForest
  | cons : XNode → XForest → XForest
deriving Repr
end

mutual
/-- `walk(node, in_table)` of `_walk_body_paragraphs`: tables force the
flag to `True` for everything nested inside, paragraphs are yielded and
not descended into, other containers are transparent. -/
def walkNode : XNode → Bool → List (ParaData × Bool)
  | .para d, b => [(d, b)]
  | .tbl f, _ => walkForest f true
  | .other f, b => walkForest f b

def walkForest : XForest → Bool → List (ParaData × Bool)
  | .nil, _ => []
  | .cons n f, b => walkNode n b ++ walkForest f b
end

mutual
/-- The paragraphs of a forest in document (pre-)order, independent of any
table flag — the reference for "reading order, each paragraph once". -/
def docParasNode : XNode → List ParaData
  | .para d => [d]
  | .tbl f => docParasForest f
  | .other f => docParasForest f

def docParasForest : XForest → List ParaData
  | .nil => []
  | .cons n f => docParasNode n ++ docParasForest f
end

/-- Tags of container elements, used to express "has a table ancestor". -/
inductive XTag where
  | tbl : XTag
  | other : XTag
deriving DecidableEq, Repr

mutual
/-- Each paragraph paired with the list of tags of its ancestor
containers. -/
def tagNode : XNode → List XTag → List (ParaData × List XTag)
  | .para d, anc => [(d, anc)]
  | .tbl f, anc => tagForest f (XTag.tbl :: anc)
  | .other f, anc => tagForest f (XTag.other :: anc)

def tagForest : XForest → List XTag → List (ParaData × List XTag)
  | .nil, _ => []
  | .cons n f, anc => tagNode n anc ++ tagForest f anc
end

/-! ## Heading style parsing (`_heading_level_from_style`) -/

/-- One search pass of
`re.search(r"(heading|überschrift|berschrift)\s*([1-9])", s)`
(`allowWs = true`) or of the variant without `\s*` (`allowWs = false`):
at each position try the alternatives in order, then optional whitespace,
then a digit `1`-`9`. -/
def styleScan (s : String) (allowWs : Bool) : Option Nat :=
  let cs := s.data
  (List.range cs.length).findSome? (fun i =>
    ["heading", "überschrift", "berschrift"].findSome? (fun w =>
      let ws := w.data
      if (cs.drop i).take ws.length == ws then
        let rest0 := (cs.drop i).drop ws.length
        let rest := if allowWs then rest0.dropWhile isPySpace else rest0
        match rest with
        | c :: _ =>
          if '1' ≤ c && c ≤ '9' then some (c.toNat - '0'.toNat) else none
        | [] => none
      else none))

/-- `_heading_level_from_style`. -/
def heading_level_from_style (style_id : String) : Option Nat :=
  let s := pyLower (pyStrip style_id)
  if s = "" then none
  else
    match styleScan s true with
    | some l => some l
    | none =>
      match styleScan s false with
      | some l => some l
      | none =>
        if listContainsSub "heading".data s.data ||
           listContainsSub "überschrift".data s.data ||
           listContainsSub "berschrift".data s.data then some 1
        else none

/-! ## Auto-numbering counters -/

/-- One update of the `auto_counts` array for a style heading carrying a
native outline level `ilvl` and no explicit number.  The array
`auto_counts = [0] * 10` is modelled as a function from index to value
(indices beyond the written range read as the list's default `0`).
Returns the updated counters and the synthesised dot-joined number. -/
def autoStep (counts : Nat → Nat) (ilvl : Int) : (Nat → Nat) × String :=
  let lvl : Nat := (max 1 (min 9 (ilvl + 1))).toNat
  let c1 : Nat → Nat := fun k =>
    if k = lvl then counts lvl + 1 else if lvl < k then 0 else counts k
  let c2 : Nat → Nat :=
    if 1 < lvl ∧ c1 1 = 0 then (fun k => if k = 1 then 1 else c1 k) else c1
  (c2, String.intercalate "." ((List.range' 1 lvl).map (fun k => toString (c2 k))))

/-! ## Extraction loop (`_extract_paragraphs_and_headings_from_xml`) -/

/-- The per-paragraph loop, threading the paragraph index and the
auto-numbering counters.  Numbers produced by `NUMBERING_RE` or by
`autoStep` are always non-empty, so `Option.isSome` faithfully renders the
Python truthiness tests on `number`. -/
def extractGo : List (ParaData × Bool) → Nat → (Nat → Nat) →
    List String × List Heading
  | [], _, _ => ([], [])
  | (d, inTable) :: rest, idx, counts =>
    let text := d.text
    if text = "" then
      let r := extractGo rest (idx + 1) counts
      ("" :: r.1, r.2)
    else if inTable then
      let r := extractGo rest (idx + 1) counts
      (text :: r.1, r.2)
    else
      let style := pyLower (pyStrip d.style)
      let level_from_style := heading_level_from_style style
      let is_heading_style := level_from_style.isSome
      let parsed := parseNumbering text
      let number0 : Option String := parsed.map (fun q => q.1)
      let title : String :=
        match parsed with
        | some q => pyStrip q.2
        | none => text
      let stepped :=
        match number0, is_heading_style, d.ilvl with
        | none, true, some i => some (autoStep counts i)
        | _, _, _ => none
      let counts' := match stepped with
        | some st => st.1
        | none => counts
      let number : Option String := match stepped with
        | some st => some st.2
        | none => number0
      let levelForKey : Option Nat :=
        match level_from_style with
        | some l => some l
        | none =>
          match number with
          | some n => some (countCharStr n '.' + 1)
          | none => none
      let looks_like_known_section :=
        (find_section_key title levelForKey number).isSome
      let isHeading :=
        is_heading_style ||
        (number.isSome && decide (text.length ≤ 120)) ||
        (looks_like_known_section && decide (title.length ≤ 60))
      let level : Nat :=
        match number with
        | some n => countCharStr n '.' + 1
        | none =>
          match level_from_style with
          | some l => l
          | none => 1
      let r := extractGo rest (idx + 1) counts'
      (text :: r.1,
       if isHeading then ⟨title, level, number, idx⟩ :: r.2 else r.2)

/-- Extraction from the walked entry list: run the per-paragraph loop and
then drop headings that fall inside the detected TOC range and whose
source paragraph looks like a TOC line. -/
def extractFromEntries (entries : List (ParaData × Bool)) :
    List String × List Heading :=
  let r := extractGo entries 0 (fun _ => 0)
  let paragraphs := r.1
  let headings := r.2
  match find_toc_range paragraphs with
  | none => (paragraphs, headings)
  | some (tocStart, tocEnd) =>
    (paragraphs,
     headings.filter (fun h =>
       !(decide (tocStart ≤ h.para_index) && decide (h.para_index < tocEnd) &&
         looks_like_toc_line (paragraphs.getD h.para_index ""))))

/-- `_extract_paragraphs_and_headings_from_xml` on a body forest. -/
def extract_paragraphs_and_headings (body : XForest) :
    List String × List Heading :=
  extractFromEntries (walkForest body false)

/-! ## Section segmentation (`_build_sections`) -/

/-- The key lookup used for every heading in `_build_sections`. -/
def sectionKeyOfHeading (h : Heading) : Option String :=
  find_section_key h.text (some h.level) h.number

/-- The sort key `lambda x: x.para_index` of `_build_sections` (Python's
`sorted` is stable and `List.insertionSort` with a reflexive relation is
stable in the same way). -/
def headingLe (a b : Heading) : Prop := a.para_index ≤ b.para_index

instance : DecidableRel headingLe := fun a b =>
  inferInstanceAs (Decidable (a.para_index ≤ b.para_index))

instance : IsTotal Heading headingLe :=
  ⟨fun a b => Nat.le_total a.para_index b.para_index⟩

instance : IsTrans Heading headingLe :=
  ⟨fun _ _ _ hab hbc => Nat.le_trans hab hbc⟩

/-- The end of the section started at a heading: the `para_index` of the
first later (sorted-order) heading that resolves to any section key, or
the paragraph count (`for j in range(i + 1, len(hs)): if sec_keys[j]: ...`). -/
def sectionEnd (ps : List String) (post : List Heading) : Nat :=
  match post.find? (fun h2 => (sectionKeyOfHeading h2).isSome) with
  | some h2 => h2.para_index
  | none => ps.length

/-- The `Section` value built for key `k` from heading `h`, where `post`
is the (sorted) list of headings after `h`. -/
def mkSection (ps : List String) (k : String) (h : Heading)
    (post : List Heading) : Section :=
  let start := h.para_index + 1
  let e := sectionEnd ps post
  let slice := ((ps.drop start).take (e - start)).filter
    (fun p => !(p == "") && !(pyStrip p == ""))
  let text := pyStrip (String.intercalate "\n" slice)
  ⟨k, h.text, start, max start (e - 1), text, wordCount text⟩

/-- The main loop of `_build_sections` over the sorted headings: a heading
with no key is skipped, an already-claimed key is skipped, otherwise the
section is appended (dict insertion order). -/
def buildGo (ps : List String) (done : List (String × Section)) :
    List Heading → List (String × Section)
  | [] => done
  | h :: rest =>
    match sectionKeyOfHeading h with
    | none => buildGo ps done rest
    | some k =>
      if (done.map Prod.fst).contains k then buildGo ps done rest
      else buildGo ps (done ++ [(k, mkSection ps k h rest)]) rest

/-- `_build_sections`. -/
def build_sections (ps : List String) (hs : List Heading) :
    List (String × Section) :=
  buildGo ps [] (hs.insertionSort headingLe)

/-! ## Signal extraction (`_extract_references`, `_extract_citation_signals`) -/

def dashFix (c : Char) : Char := if c == '–' || c == '—' then '-' else c

/-- Scanner for `re.findall(r"\[([^\]]*?\d[^\]]*?)\]", text)`.  At a `[`
the only possible match extends to the first following `]` (the content
class excludes `]`) and requires a digit inside; on failure the regex
engine restarts one position later.  Fuel is the input length. -/
def bracketBlocksGo : Nat → List Char → List (List Char)
  | 0, _ => []
  | _, [] => []
  | fuel + 1, c :: rest =>
    if c == '[' then
      let content := rest.takeWhile (fun x => !(x == ']'))
      match rest.dropWhile (fun x => !(x == ']')) with
      | ']' :: after =>
        if content.any Char.isDigit then content :: bracketBlocksGo fuel after
        else bracketBlocksGo fuel rest
      | _ => bracketBlocksGo fuel rest
    else bracketBlocksGo fuel rest

def bracketBlocks (cs : List Char) : List (List Char) :=
  bracketBlocksGo cs.length cs

/-- One attempted match of
`AUTHOR_YEAR_RE = \(([A-ZÄÖÜ][A-Za-zÄÖÜäöüß\-]+),\s*(\d{4})\)` at the head
of the input; returns the two groups and the remainder.  All quantifiers
are over pairwise disjoint character classes, so greedy matching is
deterministic and `\d{4}\)` requires the maximal digit run to have length
exactly 4. -/
def tryAuthorYear (cs : List Char) : Option ((String × String) × List Char) :=
  match cs with
  | '(' :: c1 :: rest =>
    if isUpperGerman c1 then
      let letters := rest.takeWhile isAuthorChar
      if letters.isEmpty then none
      else
        match rest.dropWhile isAuthorChar with
        | ',' :: rest2 =>
          let rest3 := rest2.dropWhile isPySpace
          let digs := rest3.takeWhile Char.isDigit
          if digs.length == 4 then
            match rest3.dropWhile Char.isDigit with
            | ')' :: after => some ((⟨c1 :: letters⟩, ⟨digs⟩), after)
            | _ => none
          else none
        | _ => none
    else none
  | _ => none

/-- `finditer` over the author-year pattern (leftmost, non-overlapping). -/
def authorYearGo : Nat → List Char → List (String × String)
  | 0, _ => []
  | _, [] => []
  | fuel + 1, c :: rest =>
    match tryAuthorYear (c :: rest) with
    | some (m, after) => m :: authorYearGo fuel after
    | none => authorYearGo fuel rest

def authorYearMatches (cs : List Char) : List (String × String) :=
  authorYearGo cs.length cs

/-- One attempted match of `\bet\s+al\.` (case-insensitive) at the head of
the input; `prevOk` says the word boundary before `et` holds. -/
def tryEtAl (prevOk : Bool) (cs : List Char) : Option (List Char) :=
  if !prevOk then none
  else
    match cs with
    | e :: t :: rest =>
      if pyLowerChar e == 'e' && pyLowerChar t == 't' then
        let ws := rest.takeWhile isPySpace
        if ws.isEmpty then none
        else
          match rest.dropWhile isPySpace with
          | a :: l :: '.' :: after =>
            if pyLowerChar a == 'a' && pyLowerChar l == 'l' then some after
            else none
          | _ => none
      else none
    | _ => none

def etalGo : Nat → Option Char → List Char → Nat
  | 0, _, _ => 0
  | _, _, [] => 0
  | fuel + 1, prev, c :: rest =>
    let boundary := match prev with
      | some pc => !isWordChar pc
      | none => true
    match tryEtAl boundary (c :: rest) with
    | some after => 1 + etalGo fuel (some '.') after
    | none => etalGo fuel (some c) rest

def countEtAl (cs : List Char) : Nat := etalGo cs.length none cs

/-- `_extract_citation_signals`. -/
def extract_citation_signals (paragraphs : List String) : CitationSignals :=
  let text := String.intercalate "\n" (paragraphs.filter (fun p => !(p == "")))
  let blocks := bracketBlocks text.data
  let numeric_count :=
    (blocks.filter (fun b => (b.map dashFix).any Char.isDigit)).length
  let author_year := (authorYearMatches text.data).length
  let etal := countEtAl text.data
  ⟨numeric_count, author_year, etal⟩

/-- Python `str.title()` (upper-case a cased letter after a non-cased
character, lower-case the rest). -/
def isCasedLetter (c : Char) : Bool :=
  c.isAlpha || c == 'ä' || c == 'ö' || c == 'ü' || c == 'ß' ||
  c == 'Ä' || c == 'Ö' || c == 'Ü'

def pyTitleGo : List Char → Bool → List Char
  | [], _ => []
  | c :: rest, prevCased =>
    if isCasedLetter c then
      (if prevCased then pyLowerChar c else pyUpperChar c) :: pyTitleGo rest true
    else c :: pyTitleGo rest false

def pyTitle (s : String) : String := ⟨pyTitleGo s.data false⟩

/-- Scanner for `re.findall(r"\b<word>\s+\d+\b", text, flags=IGNORECASE)`
(`word` given in lower case); yields the matched substrings in their
original case. -/
def findWordNumRefsGo (word : List Char) : Nat → Option Char → List Char →
    List String
  | 0, _, _ => []
  | _, _, [] => []
  | fuel + 1, prev, c :: rest =>
    let cs := c :: rest
    let boundary := match prev with
      | some pc => !isWordChar pc
      | none => true
    let m : Option (List Char × List Char) :=
      if boundary && ((cs.take word.length).map pyLowerChar == word) then
        let rest1 := cs.drop word.length
        let ws := rest1.takeWhile isPySpace
        if ws.isEmpty then none
        else
          let rest2 := rest1.dropWhile isPySpace
          let digs := rest2.takeWhile Char.isDigit
          if digs.isEmpty then none
          else
            let rest3 := rest2.dropWhile Char.isDigit
            if isWordCharAt rest3 0 then none
            else some (cs.take (word.length + ws.length + digs.length), rest3)
      else none
    match m with
    | some (matched, after) =>
      (⟨matched⟩ : String) ::
        findWordNumRefsGo word fuel (some (matched.getLastD ' ')) after
    | none => findWordNumRefsGo word fuel (some c) rest

def findWordNumRefs (word : String) (cs : List Char) : List String :=
  findWordNumRefsGo word.data cs.length none cs

/-- `_extract_references`: `Abbildung <n>` / `Tabelle <n>` mentions,
title-cased, sorted and deduplicated. -/
def extract_references (paragraphs : List String) :
    List String × List String :=
  let text := String.intercalate "\n" (paragraphs.filter (fun p => !(p == "")))
  let fig := (findWordNumRefs "abbildung" text.data).map pyTitle
  let tab := (findWordNumRefs "tabelle" text.data).map pyTitle
  (pySortedSet fig, pySortedSet tab)

/-! ## `extract_docx` (document model assembly) -/

/-- `extract_docx` downstream of the body walk: assemble the
`DocumentModel` from the walked paragraph entries.  The table count comes
from the external container reader (`len(doc.tables)` via python-docx)
and is a parameter. -/
def extract_docx_from_entries (filename : String)
    (entries : List (ParaData × Bool)) (tablesCount : Nat) : DocumentModel :=
  let pr := extractFromEntries entries
  let paragraphs := pr.1
  let headings := pr.2
  let sections := build_sections paragraphs headings
  let fr := extract_references paragraphs
  let citations := extract_citation_signals paragraphs
  let full_text := String.intercalate "\n"
    (paragraphs.filter (fun p => !(p == "")))
  ⟨filename, paragraphs, headings, sections, wordCount full_text,
   tablesCount, fr.1, fr.2, citations⟩

/-- `extract_docx` on a body forest. -/
def extract_docx (filename : String) (body : XForest) (tablesCount : Nat) :
    DocumentModel :=
  extract_docx_from_entries filename (walkForest body false) tablesCount

/-! ## Literature-rule helpers (`literature_rules.py`) -/

/-- Generic first-index search (used with heading predicates). -/
def firstIdxP {α : Type} (p : α → Bool) : List α → Option Nat
  | [] => none
  | x :: xs => if p x then some 0 else (firstIdxP p xs).map (fun i => i + 1)

def isDigitStr (s : String) : Bool := !(s == "") && s.data.all Char.isDigit

/-- `re.findall(r"\d+", p)`: the maximal digit runs of `p`. -/
def digitRunsGo : Nat → List Char → List String
  | 0, _ => []
  | _, [] => []
  | fuel + 1, c :: rest =>
    if c.isDigit then
      (⟨c :: rest.takeWhile Char.isDigit⟩ : String) ::
        digitRunsGo fuel (rest.dropWhile Char.isDigit)
    else digitRunsGo fuel rest

def digitRuns (s : String) : List String := digitRunsGo s.data.length s.data

/-- One comma-separated part of a numeric block (`_expand_numeric_block`):
a digit range `a-b` is expanded (capped at 200 entries), anything else
falls back to its digit runs. -/
def expandPart (p : String) : List String :=
  if p.data.contains '-' then
    let a := pyStrip ⟨p.data.takeWhile (fun c => !(c == '-'))⟩
    let b := pyStrip ⟨(p.data.dropWhile (fun c => !(c == '-'))).drop 1⟩
    if isDigitStr a && isDigitStr b then
      let s := a.toNat?.getD 0
      let e := b.toNat?.getD 0
      if s ≤ e ∧ e - s ≤ 200 then (List.range' s (e - s + 1)).map toString
      else [a, b]
    else digitRuns p
  else digitRuns p

/-- `_expand_numeric_block`. -/
def expand_numeric_block (b : List Char) : List String :=
  let b1 := b.map dashFix
  let b2 := b1.map (fun c =>
    if c.isDigit || c == ',' || c == '-' || isPySpace c then c else ' ')
  let b3 := stripChars isPySpace (collapseWs b2)
  if b3.isEmpty then []
  else
    let parts := ((pySplitChar ',' (String.mk b3)).map pyStrip).filter
      (fun x => !(x == ""))
    stableDedup ((parts.map expandPart).flatten)

/-- `_extract_citations_from_text`: numeric citation identifiers and
`Surname-YYYY` keys. -/
def extract_citations_from_text (text : String) :
    List String × List String :=
  let numeric := ((bracketBlocks text.data).map expand_numeric_block).flatten
  let ay := (authorYearMatches text.data).map (fun m => m.1 ++ "-" ++ m.2)
  (numeric, ay)

/-- `REF_ITEM_LINE_RE = ^\s*(\[\s*\d+\s*\]|\d+\s*[\.\)])\s+`. -/
def refItemLine (ln : String) : Bool :=
  let a := ln.data.dropWhile isPySpace
  let alt1 :=
    match a with
    | '[' :: r =>
      let r1 := r.dropWhile isPySpace
      let ds := r1.takeWhile Char.isDigit
      if ds.isEmpty then false
      else
        match (r1.dropWhile Char.isDigit).dropWhile isPySpace with
        | ']' :: after => !(after.takeWhile isPySpace).isEmpty
        | _ => false
    | _ => false
  let alt2 :=
    let ds := a.takeWhile Char.isDigit
    if ds.isEmpty then false
    else
      match (a.dropWhile Char.isDigit).dropWhile isPySpace with
      | c :: after =>
        (c == '.' || c == ')') && !(after.takeWhile isPySpace).isEmpty
      | [] => false
  alt1 || alt2

/-- `_detect_reference_block`: `(found, evidence, count)`. -/
def detect_reference_block (text : String) (minItems : Nat) :
    Bool × String × Nat :=
  let lines := (((pySplitChar '\n' text).map pyStrip).filter (fun l => !(l == "")))
  let hits := lines.filter refItemLine
  if minItems ≤ hits.length then
    let n := toString hits.length
    let examples := (String.intercalate " | " (hits.take 3)).take 260
    (true, "Einträge: " ++ n ++ " | Beispiele: " ++ examples, hits.length)
  else (false, "", hits.length)

/-- Match of `^\[\s*(\d+)\s*\]` at the start of a line, returning the
digit group. -/
def refNumBracket (ln : String) : Option String :=
  match ln.data with
  | '[' :: r =>
    let r1 := r.dropWhile isPySpace
    let ds := r1.takeWhile Char.isDigit
    if ds.isEmpty then none
    else
      match (r1.dropWhile Char.isDigit).dropWhile isPySpace with
      | ']' :: _ => some ⟨ds⟩
      | _ => none
  | _ => none

/-- Match of `^\s*(\d+)\s*[\.\)]\s+` at the start of a line. -/
def refNumDotted (ln : String) : Option String :=
  let a := ln.data.dropWhile isPySpace
  let ds := a.takeWhile Char.isDigit
  if ds.isEmpty then none
  else
    match (a.dropWhile Char.isDigit).dropWhile isPySpace with
    | c :: after =>
      if (c == '.' || c == ')') && !(after.takeWhile isPySpace).isEmpty
      then some ⟨ds⟩ else none
    | [] => none

/-- First match of `re.search(r"\b(19|20)\d{2}\b", ln)`. -/
def findYearGo : Nat → Option Char → List Char → Option String
  | 0, _, _ => none
  | _, _, [] => none
  | fuel + 1, prev, c :: rest =>
    let boundary := match prev with
      | some pc => !isWordChar pc
      | none => true
    let m : Option String :=
      if boundary then
        match c :: rest with
        | c1 :: c2 :: c3 :: c4 :: after =>
          if ((c1 == '1' && c2 == '9') || (c1 == '2' && c2 == '0')) &&
             c3.isDigit && c4.isDigit && !(isWordCharAt after 0)
          then some ⟨[c1, c2, c3, c4]⟩ else none
        | _ => none
      else none
    match m with
    | some y => some y
    | none => findYearGo fuel (some c) rest

def findYear (ln : String) : Option String :=
  findYearGo ln.data.length none ln.data

/-- Match of `^([A-ZÄÖÜ][A-Za-zÄÖÜäöüß\-]+)\b` against a line.  The run
after the initial capital is taken greedily and then backtracked from the
longest prefix (length ≥ 1) until the trailing word boundary holds (`-` is
in the run class but is not a word character). -/
def lineStartSurname (ln : String) : Option String :=
  match ln.data with
  | c :: rest =>
    if isUpperGerman c then
      let run := rest.takeWhile isAuthorChar
      let after := rest.dropWhile isAuthorChar
      ((List.range run.length).reverse.map (fun i => i + 1)).findSome?
        (fun k =>
          let lastC := run.getD (k - 1) c
          let next : Option Char := match run.get? k with
            | some x => some x
            | none => after.head?
          let nextWord := match next with
            | some x => isWordChar x
            | none => false
          if (isWordChar lastC) != nextWord then some (⟨c :: run.take k⟩ : String)
          else none)
    else none
  | [] => none

/-- `_extract_reference_candidates_from_literature`. -/
def extract_reference_candidates_from_literature (text : String) :
    List String × List String :=
  let lines := (((pySplitChar '\n' text).map pyStrip).filter (fun l => !(l == "")))
  let r := lines.foldl (fun (acc : List String × List String) ln =>
    let nums := acc.1 ++
      (match refNumBracket ln with
       | some d => [d]
       | none =>
         match refNumDotted ln with
         | some d => [d]
         | none => [])
    let ays := acc.2 ++
      (match findYear ln with
       | some y =>
         match lineStartSurname ln with
         | some s => [s ++ "-" ++ y]
         | none => []
       | none => [])
    (nums, ays)) ([], [])
  (stableDedup r.1, stableDedup r.2)

/-- `_get_literature_text`: the literature section's text, or the full
text when a reference block is only detectable heuristically. -/
def litFallback (doc : DocumentModel) : Option String × String :=
  let full := String.intercalate "\n" doc.paragraphs
  if (detect_reference_block full 3).1 then (some full, "fallback")
  else (none, "none")

def get_literature_text (doc : DocumentModel) : Option String × String :=
  match sectionsGet doc "literatur" with
  | some sec =>
    if !(sec.text == "") && !(pyStrip sec.text == "") then
      (some sec.text, "section")
    else litFallback doc
  | none => litFallback doc

/-! ## Rules

Each Python rule class becomes a `_run` function.  The research-question
text heuristics (`_contains_research_question`, `_tokenize`,
`_extract_candidate_terms`, `_find_variants` in
`research_question_rules.py`) perform Unicode NFKD decomposition with
combining-character removal, which has no faithful executable rendering
here; they are passed in as an oracle bundle, and every theorem about the
rules is quantified over all oracle instantiations. -/

structure RQTextOracles where
  containsResearchQuestion : String → Bool
  tokenize : String → List String
  extractCandidateTerms : String → Nat → List String
  findVariants : List String → String → List String

/-- `structure_rules.RequiredChaptersRule.REQUIRED`. -/
def RequiredChaptersRule_REQUIRED : List String :=
  ["einleitung", "theorie", "methode", "ergebnisse", "diskussion", "fazit",
   "literatur"]

/-- `RequiredChaptersRule.run`. -/
def RequiredChaptersRule_run (doc : DocumentModel)
    (_ai : Option AIAnnotations) : List Finding :=
  let present := doc.sections.map Prod.fst
  let missing := RequiredChaptersRule_REQUIRED.filter
    (fun k => !(present.contains k))
  if !missing.isEmpty then
    [⟨"STRUCT-007", "Struktur", "error",
      "Fehlende Pflichtkapitel: " ++ String.intercalate ", " missing,
      some ("Gefunden: " ++ joinOrKeine (pySortedSet present))⟩]
  else
    [⟨"STRUCT-007", "Struktur", "info",
      "Alle Pflichtkapitel wurden gefunden.",
      some ("Kapitel: " ++ String.intercalate ", " (pySortedSet present))⟩]

/-- `toc_lists_rules._find_heading_like_line` (its `_norm` equals
`_normalize_simple`). -/
def find_heading_like_line (paragraphs variants : List String) : Option Nat :=
  let wanted := variants.map normalize_simple
  firstIdx (fun p => wanted.contains (normalize_simple p)) paragraphs

def TOC_TITLES : List String :=
  ["inhaltsverzeichnis", "table of contents", "contents"]

/-- `TableOfContentsExistsRule.run` (STRUCT-015). -/
def TableOfContentsExistsRule_run (doc : DocumentModel)
    (_ai : Option AIAnnotations) : List Finding :=
  match find_heading_like_line doc.paragraphs TOC_TITLES with
  | none =>
    [⟨"STRUCT-015", "Struktur", "error", "Kein Inhaltsverzeichnis erkannt.",
      some "Tipp: Überschrift 'Inhaltsverzeichnis' verwenden."⟩]
  | some idx =>
    let window := (doc.paragraphs.drop (idx + 1)).take 39
    let toc_like := (window.filter looks_like_toc_line).length
    let ev := some ("Position: Absatz " ++ toString idx ++
      " | TOC-Zeilen (heuristisch): " ++ toString toc_like)
    if 3 ≤ toc_like then
      [⟨"STRUCT-015", "Struktur", "info", "Inhaltsverzeichnis erkannt.", ev⟩]
    else
      [⟨"STRUCT-015", "Struktur", "warn",
        "Inhaltsverzeichnis-Überschrift gefunden, aber Inhalt wirkt unklar (heuristisch).",
        ev⟩]

/-- Python `str.isdigit` on the character universe modelled here: the ASCII
decimal digits plus the Latin-1 superscript digits `¹ ² ³`, which belong to
Python's Unicode digit class without being decimal digits (`int()` rejects
them).  Other non-ASCII members of the class are not modelled, in line with
the NFKC-identity convention used throughout this file. -/
def pyIsDigitChar (c : Char) : Bool :=
  c.isDigit || c = '¹' || c = '²' || c = '³'

/-- `str.isdigit` on a whole string: non-empty and all digit-class. -/
def pyIsDigit (s : String) : Bool :=
  !(s == "") && s.data.all pyIsDigitChar

/-- The component loop of `heading_rules._parse_number`
(`[int(x) for x in num.split(".") if x.strip().isdigit()]`): components
whose stripped text fails `isdigit` are skipped; a kept component that is
not a plain decimal number (e.g. `"²"`) makes `int()` raise `ValueError`,
rendered as `Except.error` at the first such component. -/
def parseNumGo : List String → Except String (List Nat)
  | [] => .ok []
  | x :: rest =>
    let y := pyStrip x
    if pyIsDigit y then
      if y.data.all Char.isDigit then
        match parseNumGo rest with
        | .ok vs => .ok (y.toNat?.getD 0 :: vs)
        | .error e => .error e
      else
        .error ("ValueError: invalid literal for int() with base 10: " ++ x)
    else
      parseNumGo rest

/-- `heading_rules._parse_number`. -/
def parse_number_str (num : String) : Except String (List Nat) :=
  parseNumGo (pySplitChar '.' num)

def hierLevelFinding (h : Heading) (expected : Nat) : Finding :=
  ⟨"STRUCT-009", "Struktur", "warn",
   "Überschriftenlevel passt evtl. nicht zur Nummerierung: '" ++
     h.number.getD "" ++ " " ++ h.text ++ "'",
   some ("Erwarteter Level: " ++ toString expected ++ ", erkannt: " ++
     toString h.level)⟩

def hierJumpFinding (pp : List Nat) (h : Heading) : Finding :=
  ⟨"STRUCT-009", "Struktur", "warn",
   "Möglicher Nummerierungssprung: vorher " ++
     String.intercalate "." (pp.map toString) ++ ", jetzt " ++
     h.number.getD "",
   some ("Überschrift: " ++ h.number.getD "" ++ " " ++ h.text)⟩

/-- The main loop of `HeadingHierarchyRule.run`.  A `ValueError` from
`_parse_number` propagates; and when two consecutive numbered headings both
parse to an empty component list, the Python code evaluates `parts[-1]` on
an empty list and raises `IndexError`; both are rendered as
`Except.error`. -/
def hierGo : List Heading → Option (List Nat) → List Finding →
    Except String (List Finding)
  | [], _, acc => .ok acc
  | h :: rest, prev, acc =>
    match parse_number_str (h.number.getD "") with
    | .error e => .error e
    | .ok parts =>
      let acc1 :=
        if h.level ≠ parts.length then acc ++ [hierLevelFinding h parts.length]
        else acc
      match prev with
      | some pp =>
        if parts.length = pp.length then
          if parts.dropLast = pp.dropLast then
            match parts.getLast?, pp.getLast? with
            | some a, some b =>
              hierGo rest (some parts)
                (if b + 1 < a then acc1 ++ [hierJumpFinding pp h] else acc1)
            | _, _ => .error "IndexError: list index out of range"
          else hierGo rest (some parts) acc1
        else hierGo rest (some parts) acc1
      | none => hierGo rest (some parts) acc1

/-- `HeadingHierarchyRule.run` (STRUCT-009). -/
def HeadingHierarchyRule_run (doc : DocumentModel)
    (_ai : Option AIAnnotations) : Except String (List Finding) :=
  let numbered := doc.headings.filter (fun h => optStrTruthy h.number)
  if numbered.isEmpty then
    .ok [⟨"STRUCT-009", "Struktur", "info",
      "Keine nummerierten Überschriften gefunden (Check 9 übersprungen).",
      none⟩]
  else
    match hierGo numbered none [] with
    | .ok fs =>
      .ok (if fs.isEmpty then
        [⟨"STRUCT-009", "Struktur", "info",
          "Überschriftenhierarchie wirkt konsistent (heuristisch).",
          some ("Nummerierte Überschriften: " ++ toString numbered.length)⟩]
        else fs)
    | .error e => .error e

/-- The max-depth loop of `HeadingDepthRule.run`; a `ValueError` from
`_parse_number` propagates out of the loop. -/
def depthGo : List Heading → Nat → Option Heading →
    Except String (Nat × Option Heading)
  | [], md, dp => .ok (md, dp)
  | h :: rest, md, dp =>
    match parse_number_str (h.number.getD "") with
    | .error e => .error e
    | .ok parts =>
      if md < parts.length then depthGo rest parts.length (some h)
      else depthGo rest md dp

/-- `HeadingDepthRule.run` (STRUCT-010). -/
def HeadingDepthRule_run (doc : DocumentModel)
    (_ai : Option AIAnnotations) : Except String (List Finding) :=
  let numbered := doc.headings.filter (fun h => optStrTruthy h.number)
  if numbered.isEmpty then
    .ok [⟨"STRUCT-010", "Struktur", "info",
      "Keine nummerierten Überschriften gefunden (Check 10 übersprungen).",
      none⟩]
  else
    match depthGo numbered 0 none with
    | .error e => .error e
    | .ok (max_depth, dp) =>
      if 4 < max_depth then
        match dp with
        | some deepest =>
          .ok [⟨"STRUCT-010", "Struktur", "info",
            "Gliederungstiefe ist hoch: " ++ toString max_depth ++
              " Ebenen (>4).",
            some ("Tiefstes Beispiel: " ++ deepest.number.getD "" ++ " " ++
              deepest.text)⟩]
        | none =>
          .ok [⟨"STRUCT-010", "Struktur", "info",
            "Maximale Gliederungstiefe: " ++ toString max_depth ++ " Ebenen.",
            none⟩]
      else
        .ok [⟨"STRUCT-010", "Struktur", "info",
          "Maximale Gliederungstiefe: " ++ toString max_depth ++ " Ebenen.",
          none⟩]

/-! ### Numbering rules (`numbering_rules.py`) -/

def rstripDots (s : String) : String :=
  ⟨(s.data.reverse.dropWhile (fun c => c == '.')).reverse⟩

/-- `_get_heading_number_str`. -/
def get_heading_number_str (h : Heading) : String :=
  let n := pyStrip (h.number.getD "")
  if !(n == "") then rstripDots n
  else
    match parseLeadingNumberOnly (pyStrip h.text) with
    | some g => rstripDots g
    | none => ""

/-- `_parse_num` (full-shape outline number → component tuple). -/
def parse_num_tuple (num_str : String) : Option (List Nat) :=
  let s := pyStrip num_str
  if s == "" then none
  else if numberShaped s then
    some ((pySplitChar '.' s).map (fun x => x.toNat?.getD 0))
  else none

def FRONTMATTER_OK : List String :=
  ["kurzfassung", "abstract", "danksagung", "vorwort",
   "abkürzungsverzeichnis", "abkuerzungsverzeichnis", "abkürzungen",
   "abkuerzungen", "inhaltsverzeichnis", "abbildungsverzeichnis",
   "tabellenverzeichnis", "verzeichnis der abbildungen",
   "verzeichnis der tabellen"]

/-- `_is_frontmatter_heading` (its `_norm` is strip + lower only). -/
def is_frontmatter_heading (h : Heading) : Bool :=
  FRONTMATTER_OK.contains (pyLower (pyStrip h.text))

/-- `_find_first_chapter1_idx`. -/
def find_first_chapter1_idx (hs : List Heading) : Option Nat :=
  firstIdxP (fun h =>
    h.level == 1 &&
    (match parse_num_tuple (get_heading_number_str h) with
     | some (n0 :: _) => n0 == 1
     | some [] => false
     | none => false)) hs

/-- `HeadingsMustBeNumberedRule.run` (FORM-041a). -/
def HeadingsMustBeNumberedRule_run (doc : DocumentModel)
    (_ai : Option AIAnnotations) : List Finding :=
  let hs := doc.headings
  if hs.isEmpty then
    [⟨"FORM-041a", "Formales", "error",
      "Keine Überschriften erkannt – kann Nummerierung nicht prüfen.", none⟩]
  else
    match find_first_chapter1_idx hs with
    | none =>
      [⟨"FORM-041a", "Formales", "error",
        "Kapitel 1 (erste nummerierte Hauptüberschrift) nicht erkannt – kann Pflicht-Nummerierung nicht sauber prüfen.",
        some "Tipp: Kapitel 1 muss als Überschrift (Heading/Überschrift 1) formatiert sein."⟩]
    | some i =>
      let front := hs.take i
      let body := hs.drop i
      let illegal_front := front.filter (fun h =>
        h.level == 1 && (parse_num_tuple (get_heading_number_str h)).isNone &&
        !(is_frontmatter_heading h))
      if !illegal_front.isEmpty then
        let examples := String.intercalate ", "
          ((illegal_front.take 8).map (fun h => pyStrip h.text))
        [⟨"FORM-041a", "Formales", "warn",
          "Unnummerierte Überschriften im Frontmatter gefunden (vor Kapitel 1).",
          some ("Beispiele: " ++ examples)⟩]
      else
        let unnumbered_body := body.filter (fun h =>
          h.level == 1 && (parse_num_tuple (get_heading_number_str h)).isNone)
        if !unnumbered_body.isEmpty then
          let examples := String.intercalate ", "
            ((unnumbered_body.take 8).map (fun h => pyStrip h.text))
          [⟨"FORM-041a", "Formales", "error",
            "Einige Hauptüberschriften sind nicht nummeriert (Pflicht).",
            some ("Beispiele: " ++ examples)⟩]
        else
          [⟨"FORM-041a", "Formales", "info",
            "Nummerierte Hauptüberschriften erkannt (Pflicht erfüllt).", none⟩]

/-- Strict Python tuple comparison on component lists. -/
def lexLtNat : List Nat → List Nat → Bool
  | [], [] => false
  | [], _ :: _ => true
  | _ :: _, [] => false
  | a :: as, b :: bs =>
    if a < b then true else if b < a then false else lexLtNat as bs

/-- Stable ascending sort by the component tuple (Python `sorted` with
`key=lambda x: x[0]`). -/
def insLex (x : List Nat × Heading) :
    List (List Nat × Heading) → List (List Nat × Heading)
  | [] => [x]
  | y :: ys => if lexLtNat x.1 y.1 then x :: y :: ys else y :: insLex x ys

def sortLex (l : List (List Nat × Heading)) : List (List Nat × Heading) :=
  l.foldl (fun acc x => insLex x acc) []

/-- Level-1 gap scan of FORM-041b (`expected` starts at 1). -/
def lvl1Problems : List (List Nat × Heading) → Nat → List String
  | [], _ => []
  | (num, h) :: rest, expected =>
    match num with
    | [] => lvl1Problems rest expected
    | n0 :: _ =>
      if n0 ≠ expected then
        ("Level1 erwartet " ++ toString expected ++ ", gefunden " ++
          toString n0 ++ " ('" ++ h.text.take 40 ++ "')") ::
          lvl1Problems rest (n0 + 1)
      else lvl1Problems rest (expected + 1)

/-- Per-chapter level-2 gap scan of FORM-041b. -/
def lvl2Problems (ch : Nat) : List (List Nat × Heading) → Nat → List String
  | [], _ => []
  | (num, h) :: rest, exp =>
    match num with
    | n0 :: n1 :: _ =>
      if n0 ≠ ch then lvl2Problems ch rest exp
      else if n1 ≠ exp then
        ("Level2 in Kapitel " ++ toString ch ++ " erwartet " ++ toString ch ++
          "." ++ toString exp ++ ", gefunden " ++ toString ch ++ "." ++
          toString n1 ++ " ('" ++ h.text.take 40 ++ "')") ::
          lvl2Problems ch rest (n1 + 1)
      else lvl2Problems ch rest (exp + 1)
    | _ => lvl2Problems ch rest exp

/-- Insertion-ordered grouping of level-2 entries by their chapter
(`per_chapter.setdefault`). -/
def addToBucket (acc : List (Nat × List (List Nat × Heading))) (ch : Nat)
    (q : List Nat × Heading) : List (Nat × List (List Nat × Heading)) :=
  if (acc.map Prod.fst).contains ch then
    acc.map (fun b => if b.1 == ch then (b.1, b.2 ++ [q]) else b)
  else acc ++ [(ch, [q])]

/-- `HeadingNumberingNoGapsRule.run` (FORM-041b). -/
def HeadingNumberingNoGapsRule_run (doc : DocumentModel)
    (_ai : Option AIAnnotations) : List Finding :=
  let hs := doc.headings
  if hs.isEmpty then
    [⟨"FORM-041b", "Formales", "error",
      "Keine Überschriften erkannt – kann Nummerierungs-Sprünge nicht prüfen.",
      none⟩]
  else
    let parsed := hs.filterMap (fun h =>
      (parse_num_tuple (get_heading_number_str h)).map (fun n => (n, h)))
    let lvl1 := parsed.filter (fun q => q.2.level == 1)
    let lvl2 := parsed.filter (fun q => !(q.2.level == 1) && q.2.level == 2)
    if lvl1.isEmpty && lvl2.isEmpty then
      [⟨"FORM-041b", "Formales", "error",
        "Keine nummerierten Überschriften gefunden – kann Nummerierungs-Sprünge nicht prüfen.",
        none⟩]
    else
      let prob1 := lvl1Problems (sortLex lvl1) 1
      let per_chapter := lvl2.foldl
        (fun (acc : List (Nat × List (List Nat × Heading))) q =>
          match q.1 with
          | n0 :: _ :: _ => addToBucket acc n0 q
          | _ => acc) []
      let prob2 := (per_chapter.map
        (fun b => lvl2Problems b.1 (sortLex b.2) 1)).flatten
      let problems := prob1 ++ prob2
      if !problems.isEmpty then
        [⟨"FORM-041b", "Formales", "error",
          "Nummerierung der Überschriften hat Sprünge/Lücken (Pflicht).",
          some (String.intercalate " | " (problems.take 6) ++
            (if 6 < problems.length then " ..." else ""))⟩]
      else
        [⟨"FORM-041b", "Formales", "info",
          "Nummerierung der Überschriften wirkt lückenlos (Level 1 & 2).",
          none⟩]

/-! ### Research-question rules (`research_question_rules.py`) -/

/-- `ResearchQuestionExistsRule.run` (RQ-001). -/
def ResearchQuestionExistsRule_run (o : RQTextOracles) (doc : DocumentModel)
    (_ai : Option AIAnnotations) : List Finding :=
  let full_text := String.intercalate "\n" doc.paragraphs
  if o.containsResearchQuestion full_text then
    match doc.paragraphs.find? (fun p => o.containsResearchQuestion p) with
    | some p =>
      [⟨"RQ-001", "Fragestellung", "info",
        "Hinweis auf Forschungsfrage/Zielsetzung gefunden.",
        some (p.take 220)⟩]
    | none =>
      [⟨"RQ-001", "Fragestellung", "info",
        "Hinweis auf Forschungsfrage/Zielsetzung gefunden.", none⟩]
  else
    [⟨"RQ-001", "Fragestellung", "error",
      "Keine explizite Forschungsfrage/Zielsetzung gefunden (heuristisch).",
      some "Gesucht wurden Muster wie: 'Forschungsfrage', 'Ziel dieser Arbeit', 'Diese Arbeit untersucht ...'"⟩]

/-- `ResearchQuestionInIntroRule.run` (RQ-002). -/
def ResearchQuestionInIntroRule_run (o : RQTextOracles) (doc : DocumentModel)
    (_ai : Option AIAnnotations) : List Finding :=
  match sectionsGet doc "einleitung" with
  | none =>
    [⟨"RQ-002", "Fragestellung", "warn",
      "Einleitung nicht erkannt – Check 'RQ in Einleitung' kann nicht sauber geprüft werden.",
      some "Tipp: Überschrift 'Einleitung' als echte Überschrift formatieren oder nummerieren (z.B. '1 Einleitung')."⟩]
  | some intro =>
    if o.containsResearchQuestion intro.text then
      [⟨"RQ-002", "Fragestellung", "info",
        "Hinweis auf Forschungsfrage/Zielsetzung in der Einleitung gefunden (heuristisch).",
        some ("Section: " ++ intro.title)⟩]
    else
      [⟨"RQ-002", "Fragestellung", "warn",
        "Kein Hinweis auf Forschungsfrage/Zielsetzung in der Einleitung gefunden (heuristisch).",
        some ("Section: " ++ intro.title)⟩]

/-- The research-question source passage used by RQ-003/004/005: the AI
annotation when truthy, else the first paragraph matching the
research-question patterns. -/
def rqSource (o : RQTextOracles) (doc : DocumentModel)
    (ai : Option AIAnnotations) : Option String :=
  match aiRQ ai with
  | some s => some s
  | none => doc.paragraphs.find? (fun p => o.containsResearchQuestion p)

/-- `ResearchKeyTermsConsistencyRule.run` (RQ-003). -/
def ResearchKeyTermsConsistencyRule_run (o : RQTextOracles)
    (doc : DocumentModel) (ai : Option AIAnnotations) : List Finding :=
  let full_text := String.intercalate "\n" doc.paragraphs
  let tokens := o.tokenize full_text
  match rqSource o doc ai with
  | none =>
    [⟨"RQ-003", "Fragestellung", "warn",
      "Keine Forschungsfrage/Ziel-Passage gefunden – zentrale Begriffe können nicht extrahiert werden.",
      some "Tipp: Formuliere einen Satz wie „Die Forschungsfrage lautet: …“ oder „Ziel dieser Arbeit ist …“"⟩]
  | some rq =>
    let terms := o.extractCandidateTerms rq 8
    if terms.isEmpty then
      [⟨"RQ-003", "Fragestellung", "warn",
        "Konnte keine zentralen Begriffe aus der Forschungsfrage ableiten (heuristisch).",
        some ("RQ-Text: " ++ rq.take 200)⟩]
    else
      let missing := terms.filter (fun t => !(tokens.contains t))
      if !missing.isEmpty then
        [⟨"RQ-003", "Fragestellung", "warn",
          "Einige zentrale Begriffe aus der Forschungsfrage tauchen im Text nicht auf: " ++
            String.intercalate ", " missing,
          some ("Extrahierte Begriffe: " ++ String.intercalate ", " terms)⟩]
      else
        let variants_map := terms.filterMap (fun t =>
          let v := o.findVariants tokens t
          if !v.isEmpty then some (t, v) else none)
        if !variants_map.isEmpty then
          let parts := variants_map.map (fun kv =>
            kv.1 ++ " → " ++ String.intercalate ", " kv.2)
          [⟨"RQ-003", "Fragestellung", "warn",
            "Mögliche inkonsistente Schreibweisen zentraler Begriffe gefunden (heuristisch).",
            some ((String.intercalate " | " parts).take 350)⟩]
        else
          [⟨"RQ-003", "Fragestellung", "info",
            "Zentrale Begriffe aus der Forschungsfrage erscheinen konsistent (heuristisch).",
            some ("Begriffe: " ++ String.intercalate ", " terms)⟩]

/-- The hit threshold `max(2, int(len(terms) * 0.35))` of RQ-004/005; the
float truncation agrees with `(n * 35) / 100` for every candidate-term
count the extractor can produce (`max_terms = 8`). -/
def rqNeeded (nTerms : Nat) : Nat := max 2 ((nTerms * 35) / 100)

/-- `ResearchQuestionReferencedInResultsRule.run` (RQ-004). -/
def ResearchQuestionReferencedInResultsRule_run (o : RQTextOracles)
    (doc : DocumentModel) (ai : Option AIAnnotations) : List Finding :=
  match sectionsGet doc "ergebnisse" with
  | none =>
    [⟨"RQ-004", "Fragestellung", "warn",
      "Ergebnisse-Kapitel nicht erkannt – Check RQ-004 kann nicht sauber geprüft werden.",
      some "Tipp: Überschrift als 'Ergebnisse' oder '4 Ergebnisse' formatieren/nummerieren."⟩]
  | some results =>
    match rqSource o doc ai with
    | none =>
      [⟨"RQ-004", "Fragestellung", "warn",
        "Keine Forschungsfrage/Ziel-Passage gefunden – kann Rückbezug in Ergebnissen nicht prüfen.",
        none⟩]
    | some rq =>
      let terms := o.extractCandidateTerms rq 8
      if terms.isEmpty then
        [⟨"RQ-004", "Fragestellung", "warn",
          "Keine zentralen Begriffe aus der Forschungsfrage ableitbar – Check RQ-004 übersprungen.",
          some ("RQ-Text: " ++ rq.take 200)⟩]
      else
        let results_tokens := o.tokenize results.text
        let hits := terms.filter (fun t => results_tokens.contains t)
        if rqNeeded terms.length ≤ hits.length then
          [⟨"RQ-004", "Fragestellung", "info",
            "Rückbezug auf zentrale Begriffe der Forschungsfrage im Ergebnisteil gefunden (heuristisch).",
            some ("Treffer: " ++ String.intercalate ", " hits)⟩]
        else
          [⟨"RQ-004", "Fragestellung", "warn",
            "Wenig/kein Rückbezug auf zentrale Begriffe der Forschungsfrage im Ergebnisteil (heuristisch).",
            some ("Treffer: " ++ joinOrKeine hits ++ " | Begriffe: " ++
              String.intercalate ", " terms)⟩]

/-- `ResearchQuestionReferencedInDiscussionRule.run` (RQ-005). -/
def ResearchQuestionReferencedInDiscussionRule_run (o : RQTextOracles)
    (doc : DocumentModel) (ai : Option AIAnnotations) : List Finding :=
  match sectionsGet doc "diskussion" with
  | none =>
    [⟨"RQ-005", "Fragestellung", "warn",
      "Diskussion-Kapitel nicht erkannt – Check RQ-005 kann nicht sauber geprüft werden.",
      some "Tipp: Überschrift als 'Diskussion' oder '5 Diskussion' formatieren/nummerieren."⟩]
  | some discussion =>
    match rqSource o doc ai with
    | none =>
      [⟨"RQ-005", "Fragestellung", "warn",
        "Keine Forschungsfrage/Ziel-Passage gefunden – kann Rückbezug in Diskussion nicht prüfen.",
        none⟩]
    | some rq =>
      let terms := o.extractCandidateTerms rq 8
      if terms.isEmpty then
        [⟨"RQ-005", "Fragestellung", "warn",
          "Keine zentralen Begriffe aus der Forschungsfrage ableitbar – Check RQ-005 übersprungen.",
          some ("RQ-Text: " ++ rq.take 200)⟩]
      else
        let disc_tokens := o.tokenize discussion.text
        let hits := terms.filter (fun t => disc_tokens.contains t)
        if rqNeeded terms.length ≤ hits.length then
          [⟨"RQ-005", "Fragestellung", "info",
            "Rückbezug auf zentrale Begriffe der Forschungsfrage in der Diskussion gefunden (heuristisch).",
            some ("Treffer: " ++ String.intercalate ", " hits)⟩]
        else
          [⟨"RQ-005", "Fragestellung", "warn",
            "Wenig/kein Rückbezug auf zentrale Begriffe der Forschungsfrage in der Diskussion (heuristisch).",
            some ("Treffer: " ++ joinOrKeine hits ++ " | Begriffe: " ++
              String.intercalate ", " terms)⟩]

/-! ### Structure-quality rules (`structure_quality_rules.py`) -/

def EXPECTED_ORDER : List String :=
  ["einleitung", "theorie", "methode", "ergebnisse", "diskussion", "fazit",
   "literatur"]

/-- `ChapterOrderPlausibleRule.run` (STRUCT-008). -/
def ChapterOrderPlausibleRule_run (doc : DocumentModel)
    (_ai : Option AIAnnotations) : List Finding :=
  let present := EXPECTED_ORDER.filter (fun k => (sectionsGet doc k).isSome)
  if present.length < 3 then
    [⟨"STRUCT-008", "Struktur", "info",
      "Zu wenige Kapitel erkannt – Kapitelreihenfolge kann nicht sinnvoll geprüft werden.",
      some ("Erkannt: " ++
        joinOrKeine (pySortedSet (doc.sections.map Prod.fst)))⟩]
  else
    let missing_in_between := EXPECTED_ORDER.filter (fun k =>
      (sectionsGet doc k).isNone &&
      (k == "theorie" || k == "methode" || k == "ergebnisse" ||
       k == "diskussion"))
    if !missing_in_between.isEmpty then
      [⟨"STRUCT-008", "Struktur", "warn",
        "Kapitelreihenfolge/Struktur evtl. unplausibel, da zentrale Kapitel fehlen (heuristisch).",
        some ("Fehlend: " ++ String.intercalate ", " missing_in_between ++
          " | Erkannt: " ++
          String.intercalate ", " (pySortedSet (doc.sections.map Prod.fst)))⟩]
    else
      [⟨"STRUCT-008", "Struktur", "info",
        "Kapitelstruktur wirkt plausibel (V1 heuristisch, Reihenfolge wird später exakter).",
        some ("Erkannt (Pflicht-Reihenfolge): " ++
          String.intercalate ", " present)⟩]

/-- `ChapterLengthBalancedRule.run` (STRUCT-011).  The float test
`max_v / min_v >= 3.0` is modelled by the exact rational comparison
`3 * min_v ≤ max_v`; for word counts far below 2^51 the rounding of the
float quotient cannot cross the threshold 3.0, so both agree. -/
def ChapterLengthBalancedRule_run (doc : DocumentModel)
    (_ai : Option AIAnnotations) : List Finding :=
  let keys := EXPECTED_ORDER.filter (fun k => (sectionsGet doc k).isSome)
  if keys.length < 3 then
    [⟨"STRUCT-011", "Struktur", "info",
      "Zu wenige Kapitel erkannt – Kapitelumfang kann nicht sinnvoll geprüft werden.",
      none⟩]
  else
    let counts : List (String × Nat) := keys.map (fun k =>
      (k, ((sectionsGet doc k).map Section.word_count).getD 0))
    let c0 := counts.headD ("", 0)
    let maxP := counts.foldl (fun b kv => if b.2 < kv.2 then kv else b) c0
    let minP := counts.foldl (fun b kv => if kv.2 < b.2 then kv else b) c0
    if 0 < minP.2 ∧ 3 * minP.2 ≤ maxP.2 then
      [⟨"STRUCT-011", "Struktur", "warn",
        "Kapitelumfang wirkt unausgewogen (heuristisch).",
        some ("Größtes: " ++ maxP.1 ++ " (" ++ toString maxP.2 ++
          " Wörter) | Kleinstes: " ++ minP.1 ++ " (" ++ toString minP.2 ++
          " Wörter)")⟩]
    else
      [⟨"STRUCT-011", "Struktur", "info",
        "Kapitelumfang wirkt grob ausgewogen (heuristisch).",
        some ((String.intercalate " | " (counts.map (fun kv =>
          kv.1 ++ ":" ++ toString kv.2))).take 350)⟩]

/-! ### Method/results rules (`method_results_rules.py`) -/

/-- `MethodChapterExistsRule.run` (METH-019). -/
def MethodChapterExistsRule_run (doc : DocumentModel)
    (_ai : Option AIAnnotations) : List Finding :=
  match sectionsGet doc "methode" with
  | some sec =>
    [⟨"METH-019", "Methode", "info", "Methodenkapitel gefunden.",
      some ("Titel: " ++ sec.title)⟩]
  | none =>
    [⟨"METH-019", "Methode", "error", "Kein Methodenkapitel erkannt.",
      some "Tipp: Überschrift 'Methode' / 'Methodik' verwenden oder nummerieren (z.B. '3 Methode')."⟩]

def MethodDetail_KEYWORDS : List String :=
  ["stichprobe", "sample", "teilnehmer", "participants", "daten",
   "datenerhebung", "fragebogen", "interview", "beobachtung", "analyse",
   "auswertung", "statistik", "verfahren", "methode", "operationalisierung",
   "hypothese", "messung", "instrument", "validität", "reliabilität"]

/-- `MethodDetailSufficientRule.run` (METH-020). -/
def MethodDetailSufficientRule_run (doc : DocumentModel)
    (_ai : Option AIAnnotations) : List Finding :=
  match sectionsGet doc "methode" with
  | none =>
    [⟨"METH-020", "Methode", "warn",
      "Methodenkapitel nicht erkannt – Detail-Check nicht möglich.", none⟩]
  | some sec =>
    let wc := sec.word_count
    let text := pyLower sec.text
    let hits := MethodDetail_KEYWORDS.filter
      (fun k => listContainsSub k.data text.data)
    let hitsStr := joinOrKeine hits
    if wc < 300 ∧ hits.length < 3 then
      [⟨"METH-020", "Methode", "warn",
        "Methodenteil wirkt sehr kurz und wenig detailliert (heuristisch).",
        some ("Wörter: " ++ toString wc ++ " | Keyword-Treffer: " ++
          toString hits.length ++ " (" ++ hitsStr ++ ")")⟩]
    else if wc < 300 then
      [⟨"METH-020", "Methode", "warn",
        "Methodenteil wirkt eher kurz (heuristisch).",
        some ("Wörter: " ++ toString wc ++ " | Keyword-Treffer: " ++
          toString hits.length)⟩]
    else if hits.length < 3 then
      [⟨"METH-020", "Methode", "warn",
        "Methodenteil enthält wenige typische Methodik-Signale (heuristisch).",
        some ("Wörter: " ++ toString wc ++ " | Keyword-Treffer: " ++
          toString hits.length ++ " (" ++ hitsStr ++ ")")⟩]
    else
      [⟨"METH-020", "Methode", "info",
        "Methodenteil wirkt ausreichend detailliert (heuristisch).",
        some ("Wörter: " ++ toString wc ++ " | Keyword-Treffer: " ++
          toString hits.length)⟩]

def ResultsDiscussion_CUES : List String :=
  ["bedeutet", "impliziert", "daraus folgt", "somit", "folglich",
   "interpretiert", "interpretation", "diskutieren", "diskussion",
   "limitation", "einschränkung", "kritisch", "verglichen", "vergleich",
   "literatur", "studien zeigen"]

/-- `ResultsDiscussionSeparationRule.run` (RES-025). -/
def ResultsDiscussionSeparationRule_run (doc : DocumentModel)
    (_ai : Option AIAnnotations) : List Finding :=
  match sectionsGet doc "ergebnisse", sectionsGet doc "diskussion" with
  | some res, some disc =>
    let res_text := pyLower res.text
    let disc_text := pyLower disc.text
    let res_hits := ResultsDiscussion_CUES.filter
      (fun k => listContainsSub k.data res_text.data)
    let disc_hits := ResultsDiscussion_CUES.filter
      (fun k => listContainsSub k.data disc_text.data)
    if 4 ≤ res_hits.length ∧ 2 ≤ disc_hits.length then
      [⟨"RES-025", "Ergebnisse", "warn",
        "Ergebnisteil enthält viele interpretierende Formulierungen – Trennung zu Diskussion evtl. unsauber (heuristisch).",
        some ("Ergebnisse-Hits: " ++ toString res_hits.length ++ " (" ++
          String.intercalate ", " res_hits ++ ") | Diskussion-Hits: " ++
          toString disc_hits.length)⟩]
    else
      [⟨"RES-025", "Ergebnisse", "info",
        "Trennung Ergebnis/Diskussion wirkt ok (heuristisch).",
        some ("Ergebnisse-Hits: " ++ toString res_hits.length ++
          " | Diskussion-Hits: " ++ toString disc_hits.length)⟩]
  | _, _ =>
    [⟨"RES-025", "Ergebnisse", "warn",
      "Ergebnisse oder Diskussion nicht erkannt – Trennungs-Check nicht möglich.",
      some ("Erkannt: " ++
        String.intercalate ", " (pySortedSet (doc.sections.map Prod.fst)))⟩]

/-! ### Literature rules (`literature_rules.py`) -/

/-- `LiteratureExistsRule.run` (LIT-032). -/
def LiteratureExistsRule_run (doc : DocumentModel)
    (_ai : Option AIAnnotations) : List Finding :=
  let secOk := match sectionsGet doc "literatur" with
    | some sec => !(pyStrip sec.text == "")
    | none => false
  match sectionsGet doc "literatur", secOk with
  | some sec, true =>
    [⟨"LIT-032", "Literatur", "info", "Literaturverzeichnis erkannt.",
      some ("Titel: " ++ sec.title ++ " | Wörter: " ++
        toString sec.word_count)⟩]
  | _, _ =>
    let full_text := String.intercalate "\n" doc.paragraphs
    let det := detect_reference_block full_text 3
    if det.1 then
      [⟨"LIT-032", "Literatur", "warn",
        "Literaturverzeichnis erkannt, aber nicht als Kapitelüberschrift (Heading) segmentiert.",
        some det.2.1⟩]
    else
      [⟨"LIT-032", "Literatur", "error", "Kein Literaturverzeichnis erkannt.",
        some "Tipp: Überschrift 'Literatur' / 'Literaturverzeichnis' verwenden oder nummerieren."⟩]

/-- `sorted(setA - setB)` on string lists. -/
def pySortedSetDiff (a b : List String) : List String :=
  pySortStrings ((stableDedup a).filter (fun x => !(b.contains x)))

/-- The `{', '.join(xs[:25])}{'...' if len(xs) > 25 else ''}` pattern. -/
def joinCapped (xs : List String) (cap : Nat) : String :=
  String.intercalate ", " (xs.take cap) ++
    (if cap < xs.length then "..." else "")

/-- `AllCitationsInReferenceListRule.run` (LIT-033). -/
def AllCitationsInReferenceListRule_run (doc : DocumentModel)
    (_ai : Option AIAnnotations) : List Finding :=
  let lit := get_literature_text doc
  match lit.1 with
  | none =>
    [⟨"LIT-033", "Literatur", "error",
      "Literaturverzeichnis fehlt – kann nicht prüfen ob alle Zitate enthalten sind.",
      none⟩]
  | some lit_text =>
    let source := lit.2
    let full_text := String.intercalate "\n" doc.paragraphs
    let cited := extract_citations_from_text full_text
    let refs := extract_reference_candidates_from_literature lit_text
    let missing_num := pySortedSetDiff cited.1 refs.1
    let missing_ay := pySortedSetDiff cited.2 refs.2
    if (stableDedup cited.1).isEmpty && (stableDedup cited.2).isEmpty then
      [⟨"LIT-033", "Literatur", "info",
        "Keine erkennbaren Zitate im Text gefunden (heuristisch).",
        some "(z.B. [1] oder (Müller, 2020))"⟩]
    else if !missing_num.isEmpty || !missing_ay.isEmpty then
      let pieces :=
        (if !missing_num.isEmpty then
          ["Fehlende [n]: " ++ joinCapped missing_num 25] else []) ++
        (if !missing_ay.isEmpty then
          ["Fehlende (Autor-Jahr): " ++ joinCapped missing_ay 25] else [])
      let sev := if source == "section" then "error" else "warn"
      let msg := if source == "fallback" then
          "Zitate vs. Literatur: mögliche Lücken erkannt (Literatur nicht als Kapitel segmentiert; heuristisch)."
        else
          "Einige Zitate wurden nicht im Literaturverzeichnis gefunden (heuristisch)."
      [⟨"LIT-033", "Literatur", sev, msg,
        some ((String.intercalate " | " pieces).take 350)⟩]
    else
      [⟨"LIT-033", "Literatur", "info",
        "Erkannte Zitate scheinen im Literaturverzeichnis enthalten zu sein (heuristisch).",
        some ("Quelle: " ++ source ++ " | Zitate: [n]=" ++
          toString (stableDedup cited.1).length ++ " | (Autor,Jahr)=" ++
          toString (stableDedup cited.2).length)⟩]

/-- `NoUncitedReferencesRule.run` (LIT-034). -/
def NoUncitedReferencesRule_run (doc : DocumentModel)
    (_ai : Option AIAnnotations) : List Finding :=
  let lit := get_literature_text doc
  match lit.1 with
  | none =>
    [⟨"LIT-034", "Literatur", "warn",
      "Literaturverzeichnis fehlt – kann nicht prüfen ob unzitierte Quellen enthalten sind.",
      none⟩]
  | some lit_text =>
    let source := lit.2
    let full_text := String.intercalate "\n" doc.paragraphs
    let cited := extract_citations_from_text full_text
    let refs := extract_reference_candidates_from_literature lit_text
    if (stableDedup refs.1).isEmpty && (stableDedup refs.2).isEmpty then
      [⟨"LIT-034", "Literatur", "info",
        "Konnte keine strukturierte Referenzliste erkennen (heuristisch).",
        some "Falls du APA/Harvard nutzt, ist das ok – V1 erkennt nicht alles."⟩]
    else
      let uncited_num := pySortedSetDiff refs.1 cited.1
      let uncited_ay := pySortedSetDiff refs.2 cited.2
      if !uncited_num.isEmpty || !uncited_ay.isEmpty then
        let pieces :=
          (if !uncited_num.isEmpty then
            ["Unzitiert [n]: " ++ joinCapped uncited_num 10] else []) ++
          (if !uncited_ay.isEmpty then
            ["Unzitiert (Autor-Jahr): " ++ joinCapped uncited_ay 10] else [])
        let sev := if source == "section" then "warn" else "info"
        let msg := if source == "fallback" then
            "Möglicherweise unzitierte Einträge (Literatur nicht als Kapitel segmentiert; heuristisch)."
          else
            "Möglicherweise unzitierte Einträge im Literaturverzeichnis (heuristisch)."
        [⟨"LIT-034", "Literatur", sev, msg,
          some ((String.intercalate " | " pieces).take 350)⟩]
      else
        [⟨"LIT-034", "Literatur", "info",
          "Keine offensichtlichen unzitierten Einträge erkannt (heuristisch).",
          some ("Quelle: " ++ source ++ " | Referenzen: [n]=" ++
            toString (stableDedup refs.1).length ++ " | (Autor,Jahr)=" ++
            toString (stableDedup refs.2).length)⟩]

/-- `CitationStyleConsistentRule.run` (LIT-035). -/
def CitationStyleConsistentRule_run (doc : DocumentModel)
    (_ai : Option AIAnnotations) : List Finding :=
  let full_text := String.intercalate "\n" doc.paragraphs
  let cited := extract_citations_from_text full_text
  let num_count := (stableDedup cited.1).length
  let ay_count := (stableDedup cited.2).length
  if num_count == 0 && ay_count == 0 then
    [⟨"LIT-035", "Literatur", "info",
      "Keine erkennbaren Zitatmuster gefunden (heuristisch).", none⟩]
  else if 0 < num_count ∧ 0 < ay_count then
    [⟨"LIT-035", "Literatur", "warn",
      "Mischung aus numerischen und Autor-Jahr Zitaten erkannt – Zitierstil evtl. inkonsistent.",
      some ("[n]-Zitate: " ++ toString num_count ++ " | (Autor,Jahr): " ++
        toString ay_count)⟩]
  else
    let style := if 0 < num_count then "numerisch ([n])"
      else "Autor-Jahr (Harvard/APA)"
    [⟨"LIT-035", "Literatur", "info",
      "Zitierstil wirkt konsistent (heuristisch): " ++ style ++ ".", none⟩]

/-! ### List-of-figures/tables rules (`toc_lists_rules.py`) -/

def FIG_TITLES : List String :=
  ["abbildungsverzeichnis", "verzeichnis der abbildungen",
   "list of figures", "figures"]

/-- `ListOfFiguresExistsRule.run` (FORM-039). -/
def ListOfFiguresExistsRule_run (doc : DocumentModel)
    (_ai : Option AIAnnotations) : List Finding :=
  if doc.figure_refs.isEmpty then
    [⟨"FORM-039", "Formales", "info",
      "Keine Abbildungs-Referenzen erkannt – Abbildungsverzeichnis nicht erforderlich (heuristisch).",
      none⟩]
  else
    match find_heading_like_line doc.paragraphs FIG_TITLES with
    | none =>
      [⟨"FORM-039", "Formales", "error",
        "Abbildungsverzeichnis fehlt (Pflicht, da Abbildungen vorhanden sind).",
        some ("Erkannte Abbildungs-Refs: " ++ toString doc.figure_refs.length)⟩]
    | some idx =>
      [⟨"FORM-039", "Formales", "info", "Abbildungsverzeichnis erkannt.",
        some ("Position: Absatz " ++ toString idx ++
          " | Abbildungs-Refs im Text: " ++ toString doc.figure_refs.length)⟩]

def TAB_TITLES : List String :=
  ["tabellenverzeichnis", "verzeichnis der tabellen", "list of tables",
   "tables"]

/-- `ListOfTablesExistsRule.run` (FORM-040). -/
def ListOfTablesExistsRule_run (doc : DocumentModel)
    (_ai : Option AIAnnotations) : List Finding :=
  if doc.tables_count == 0 then
    [⟨"FORM-040", "Formales", "info",
      "Keine Tabellen erkannt – Tabellenverzeichnis nicht erforderlich.",
      none⟩]
  else
    match find_heading_like_line doc.paragraphs TAB_TITLES with
    | none =>
      [⟨"FORM-040", "Formales", "error",
        "Tabellenverzeichnis fehlt (Pflicht, da Tabellen vorhanden sind).",
        some ("Tabellen im Dokument: " ++ toString doc.tables_count)⟩]
    | some idx =>
      [⟨"FORM-040", "Formales", "info", "Tabellenverzeichnis erkannt.",
        some ("Position: Absatz " ++ toString idx ++
          " | Tabellen im Dokument: " ++ toString doc.tables_count)⟩]

/-- `FiguresTablesReferencedRule.run` (RES-026). -/
def FiguresTablesReferencedRule_run (doc : DocumentModel)
    (_ai : Option AIAnnotations) : List Finding :=
  let f1 : List Finding :=
    if 0 < doc.tables_count ∧ doc.table_refs.length == 0 then
      [⟨"RES-026", "Ergebnisse", "error",
        "Dokument enthält Tabellen, aber keine 'Tabelle <n>'-Referenzen im Text gefunden.",
        some ("Tabellen im DOCX: " ++ toString doc.tables_count)⟩]
    else []
  let f2 : List Finding :=
    if doc.figure_refs.length == 0 then
      [⟨"RES-026", "Ergebnisse", "info",
        "Keine 'Abbildung <n>'-Referenzen im Text gefunden (heuristisch).",
        none⟩]
    else []
  let findings := f1 ++ f2
  if findings.isEmpty then
    [⟨"RES-026", "Ergebnisse", "info",
      "Tabellen/Abbildungen scheinen im Text referenziert zu sein (heuristisch).",
      some ("Tabellen-Refs: " ++ toString doc.table_refs.length ++
        " | Abbildungs-Refs: " ++ toString doc.figure_refs.length)⟩]
  else findings

/-! ## Rule registry (`registry.py`) -/

/-- A registered rule: stable identifier, category, default severity, and
the `run` operation.  `run` returns `Except` so that a rule whose Python
body can raise (see `hierGo`) is modelled faithfully; every other rule is
total and wrapped with `Except.ok`. -/
structure RuleImpl where
  id : String
  category : String
  severity : String
  run : DocumentModel → Option AIAnnotations → Except String (List Finding)

/-- `get_all_rules`: the fixed, explicitly ordered registry.  The oracle
bundle parameterises the five research-question rules (see
`RQTextOracles`). -/
def get_all_rules (o : RQTextOracles) : List RuleImpl := [
  ⟨"STRUCT-007", "Struktur", "error",
    fun d a => .ok (RequiredChaptersRule_run d a)⟩,
  ⟨"STRUCT-015", "Struktur", "error",
    fun d a => .ok (TableOfContentsExistsRule_run d a)⟩,
  ⟨"STRUCT-009", "Struktur", "warn", HeadingHierarchyRule_run⟩,
  ⟨"STRUCT-010", "Struktur", "info", HeadingDepthRule_run⟩,
  ⟨"FORM-041a", "Formales", "error",
    fun d a => .ok (HeadingsMustBeNumberedRule_run d a)⟩,
  ⟨"FORM-041b", "Formales", "error",
    fun d a => .ok (HeadingNumberingNoGapsRule_run d a)⟩,
  ⟨"RQ-001", "Fragestellung", "error",
    fun d a => .ok (ResearchQuestionExistsRule_run o d a)⟩,
  ⟨"RQ-002", "Fragestellung", "warn",
    fun d a => .ok (ResearchQuestionInIntroRule_run o d a)⟩,
  ⟨"RQ-003", "Fragestellung", "warn",
    fun d a => .ok (ResearchKeyTermsConsistencyRule_run o d a)⟩,
  ⟨"RQ-004", "Fragestellung", "warn",
    fun d a => .ok (ResearchQuestionReferencedInResultsRule_run o d a)⟩,
  ⟨"RQ-005", "Fragestellung", "warn",
    fun d a => .ok (ResearchQuestionReferencedInDiscussionRule_run o d a)⟩,
  ⟨"STRUCT-008", "Struktur", "warn",
    fun d a => .ok (ChapterOrderPlausibleRule_run d a)⟩,
  ⟨"STRUCT-011", "Struktur", "warn",
    fun d a => .ok (ChapterLengthBalancedRule_run d a)⟩,
  ⟨"METH-019", "Methode", "error",
    fun d a => .ok (MethodChapterExistsRule_run d a)⟩,
  ⟨"METH-020", "Methode", "warn",
    fun d a => .ok (MethodDetailSufficientRule_run d a)⟩,
  ⟨"RES-025", "Ergebnisse", "warn",
    fun d a => .ok (ResultsDiscussionSeparationRule_run d a)⟩,
  ⟨"LIT-032", "Literatur", "error",
    fun d a => .ok (LiteratureExistsRule_run d a)⟩,
  ⟨"LIT-033", "Literatur", "error",
    fun d a => .ok (AllCitationsInReferenceListRule_run d a)⟩,
  ⟨"LIT-034", "Literatur", "warn",
    fun d a => .ok (NoUncitedReferencesRule_run d a)⟩,
  ⟨"LIT-035", "Literatur", "warn",
    fun d a => .ok (CitationStyleConsistentRule_run d a)⟩,
  ⟨"FORM-039", "Formales", "error",
    fun d a => .ok (ListOfFiguresExistsRule_run d a)⟩,
  ⟨"FORM-040", "Formales", "error",
    fun d a => .ok (ListOfTablesExistsRule_run d a)⟩,
  ⟨"RES-026", "Ergebnisse", "error",
    fun d a => .ok (FiguresTablesReferencedRule_run d a)⟩]

/-- Rule ids of the eight classes that `registry.py` imports but never
places in the registry list (their classes live in
`literature_quality_rules.py`, `terminology_rules.py`,
`structure_extra_rules.py` and `caption_rules.py`). -/
def citationDensityRuleId : String := "LIT-036"

def referenceYearsRuleId : String := "LIT-037"

def abbreviationsListExistsRuleId : String := "TERM-015"

def definitionsPresentRuleId : String := "TERM-016"

def conclusionChapterExistsRuleId : String := "STRUCT-012"

def abstractExistsRuleId : String := "STRUCT-013"

def introHasStructureOverviewRuleId : String := "STRUCT-014"

def captionsPresentRuleId : String := "FORM-038"

def excludedRuleIds : List String :=
  [citationDensityRuleId, referenceYearsRuleId, abbreviationsListExistsRuleId,
   definitionsPresentRuleId, conclusionChapterExistsRuleId,
   abstractExistsRuleId, introHasStructureOverviewRuleId,
   captionsPresentRuleId]

def c10text : String :=
  "Studies [1,3-5] and (Müller, 2020) show... et al. confirm."

/-- C10: on the text
`"Studies [1,3-5] and (Müller, 2020) show... et al. confirm."` the
citation-signal extractor counts exactly one bracketed numeric block, one
parenthetical author-year citation and one "et al." occurrence. -/
theorem c10_citation_signals :
    extract_citation_signals [c10text] = ⟨1, 1, 1⟩ := by decide

/-! ### C6 — TOC exclusion -/

def c6paragraphs : List String :=
  ["Inhaltsverzeichnis", "1. Einleitung ....... 3", "2. Methode ....... 10",
   "Einleitung", "Text...", "Methode", "Text..."]

def c6entries : List (ParaData × Bool) :=
  c6paragraphs.map (fun t => (⟨t, "", none⟩, false))

/-- C6: on the TOC-exclusion scenario the pre-filter pass classifies the
paragraphs at indices 1, 2, 3 and 5 as headings, and the final heading
list drops the two dot-leader TOC lines (indices 1 and 2) and consists of
exactly the chapter headings `Einleitung` (paragraph 3) and `Methode`
(paragraph 5). -/
theorem c6_toc_exclusion :
    ((extractGo c6entries 0 (fun _ => 0)).2.map Heading.para_index =
      [1, 2, 3, 5]) ∧
    (extractFromEntries c6entries).2 =
      [⟨"Einleitung", 1, none, 3⟩, ⟨"Methode", 1, none, 5⟩] := by
  constructor
  · decide
  · decide

/-! ### C5 — auto-numbering counters -/

def c5entries : List (ParaData × Bool) :=
  [("Alpha", (0 : Int)), ("Beta", 0), ("Gamma", 1), ("Delta", 0),
   ("Epsilon", 1), ("Zeta", 1), ("Eta", 0)].map
    (fun q => (⟨q.1, "heading1", some q.2⟩, false))

/-- C5: a counter step at 0-based outline depth `i` increments the counter
at depth `i + 1`, zeroes all deeper counters, and backfills depth 1 to `1`
when a deeper counter is bumped while depth 1 is still zero; on
style-heading paragraphs at depths `[0,0,1,0,1,1,0]` the synthesized
numbers are exactly `1, 2, 2.1, 3, 3.1, 3.2, 4`. -/
theorem autoStep_apply (counts : Nat → Nat) (i : Nat) (hi : i + 1 ≤ 9) (k : Nat) :
    (autoStep counts (i : Int)).1 k =
      if k = i + 1 then counts (i + 1) + 1
      else if i + 1 < k then 0
      else if k = 1 ∧ 1 < i + 1 ∧ counts 1 = 0 then 1
      else counts k := by
  have hlvl : (max 1 (min 9 ((i : Int) + 1))).toNat = i + 1 := by omega
  simp only [autoStep, hlvl]
  by_cases hc : 1 < i + 1 ∧
      (if (1 : Nat) = i + 1 then counts (i + 1) + 1
       else if i + 1 < 1 then 0 else counts 1) = 0
  · rw [if_pos hc]
    obtain ⟨h1, h2⟩ := hc
    rw [if_neg (by omega : ¬ (1 : Nat) = i + 1),
        if_neg (by omega : ¬ i + 1 < 1)] at h2
    by_cases hk1 : k = 1
    · subst hk1
      rw [if_pos rfl, if_neg (by omega : ¬ (1 : Nat) = i + 1),
          if_neg (by omega : ¬ i + 1 < 1), if_pos ⟨rfl, h1, h2⟩]
    · rw [if_neg hk1]
      by_cases hke : k = i + 1
      · subst hke; simp
      · rw [if_neg hke, if_neg hke]
        by_cases hkl : i + 1 < k
        · rw [if_pos hkl, if_pos hkl]
        · rw [if_neg hkl, if_neg hkl, if_neg (by simp [hk1])]
  · rw [if_neg hc]
    by_cases hke : k = i + 1
    · subst hke; simp
    · rw [if_neg hke, if_neg hke]
      by_cases hkl : i + 1 < k
      · rw [if_pos hkl, if_pos hkl]
      · rw [if_neg hkl, if_neg hkl]
        by_cases hk1 : k = 1 ∧ 1 < i + 1 ∧ counts 1 = 0
        · exfalso
          obtain ⟨ha, hb, hcc⟩ := hk1
          apply hc
          refine ⟨hb, ?_⟩
          rw [if_neg (by omega : ¬ (1 : Nat) = i + 1),
              if_neg (by omega : ¬ i + 1 < 1)]
          exact hcc
        · rw [if_neg hk1]

/-- C5: a counter step at 0-based outline depth `i` increments the counter
at depth `i + 1`, zeroes all deeper counters, and backfills depth 1 to `1`
when a deeper counter is bumped while depth 1 is still zero; on
style-heading paragraphs at depths `[0,0,1,0,1,1,0]` the synthesized
numbers are exactly `1, 2, 2.1, 3, 3.1, 3.2, 4`. -/
theorem c5_auto_numbering :
    (∀ (counts : Nat → Nat) (i : Nat), i + 1 ≤ 9 →
      ((autoStep counts (i : Int)).1 (i + 1) = counts (i + 1) + 1) ∧
      (∀ k, i + 1 < k → (autoStep counts (i : Int)).1 k = 0) ∧
      (0 < i → counts 1 = 0 → (autoStep counts (i : Int)).1 1 = 1)) ∧
    ((extractFromEntries c5entries).2.map Heading.number =
      [some "1", some "2", some "2.1", some "3", some "3.1", some "3.2",
       some "4"]) := by
  constructor
  · intro counts i hi
    refine ⟨?_, ?_, ?_⟩
    · rw [autoStep_apply counts i hi, if_pos rfl]
    · intro k hk
      rw [autoStep_apply counts i hi, if_neg (by omega : ¬ k = i + 1),
          if_pos hk]
    · intro hipos h1
      rw [autoStep_apply counts i hi, if_neg (by omega : ¬ (1 : Nat) = i + 1),
          if_neg (by omega : ¬ i + 1 < 1), if_pos ⟨rfl, by omega, h1⟩]
  · decide

/-- Witness for C5: the counter step at `ilvl = 1` over zeroed counters
sets depth 2 to 1, keeps depth 3 at 0 and backfills depth 1 to 1. -/
theorem c5_auto_numbering_witness :
    (autoStep (fun _ => 0) ((1 : Nat) : Int)).1 2 = 1 ∧
    (autoStep (fun _ => 0) ((1 : Nat) : Int)).1 3 = 0 ∧
    (autoStep (fun _ => 0) ((1 : Nat) : Int)).1 1 = 1 := by
  have h := c5_auto_numbering.1 (fun _ => 0) 1 (by omega)
  exact ⟨h.1, h.2.1 3 (by omega), h.2.2 (by omega) rfl⟩

/-! ### C3 — the fixed registry -/

/-- C3: every call of `get_all_rules` yields the same explicitly ordered
registry of exactly 23 rules, and none of the eight imported-but-excluded
rule classes (by their stable rule ids) appears in it. -/
theorem c3_registry_fixed (o : RQTextOracles) :
    (get_all_rules o).map RuleImpl.id =
      ["STRUCT-007", "STRUCT-015", "STRUCT-009", "STRUCT-010", "FORM-041a",
       "FORM-041b", "RQ-001", "RQ-002", "RQ-003", "RQ-004", "RQ-005",
       "STRUCT-008", "STRUCT-011", "METH-019", "METH-020", "RES-025",
       "LIT-032", "LIT-033", "LIT-034", "LIT-035", "FORM-039", "FORM-040",
       "RES-026"] ∧
    (get_all_rules o).length = 23 ∧
    ∀ ex ∈ excludedRuleIds, ex ∉ (get_all_rules o).map RuleImpl.id := by
  refine ⟨rfl, rfl, ?_⟩
  intro ex hex
  fin_cases hex <;>
    simp [get_all_rules, citationDensityRuleId, referenceYearsRuleId,
      abbreviationsListExistsRuleId, definitionsPresentRuleId,
      conclusionChapterExistsRuleId, abstractExistsRuleId,
      introHasStructureOverviewRuleId, captionsPresentRuleId]

/-! ### C1 — required-chapters rule -/

def sixRequiredKeys : List String :=
  ["einleitung", "methode", "ergebnisse", "diskussion", "fazit", "literatur"]

/-- C1: when the extracted section map contains `einleitung`, `methode`,
`ergebnisse`, `diskussion`, `fazit` and `literatur` but not `theorie`, the
required-chapters rule returns exactly one `error` Finding whose
missing-chapter list is exactly `["theorie"]`; when all seven required
keys are present it returns exactly one `info` Finding. -/
theorem c1_required_chapters (doc : DocumentModel) (ai : Option AIAnnotations) :
    ((∀ k ∈ sixRequiredKeys, k ∈ doc.sections.map Prod.fst) →
      "theorie" ∉ doc.sections.map Prod.fst →
      ∃ ev, RequiredChaptersRule_run doc ai =
        [⟨"STRUCT-007", "Struktur", "error",
          "Fehlende Pflichtkapitel: theorie", ev⟩]) ∧
    ((∀ k ∈ RequiredChaptersRule_REQUIRED, k ∈ doc.sections.map Prod.fst) →
      ∃ ev, RequiredChaptersRule_run doc ai =
        [⟨"STRUCT-007", "Struktur", "info",
          "Alle Pflichtkapitel wurden gefunden.", ev⟩]) := by
  constructor
  · intro h6 hth
    have he : "einleitung" ∈ doc.sections.map Prod.fst :=
      h6 _ (by simp [sixRequiredKeys])
    have hm : "methode" ∈ doc.sections.map Prod.fst :=
      h6 _ (by simp [sixRequiredKeys])
    have hr : "ergebnisse" ∈ doc.sections.map Prod.fst :=
      h6 _ (by simp [sixRequiredKeys])
    have hd : "diskussion" ∈ doc.sections.map Prod.fst :=
      h6 _ (by simp [sixRequiredKeys])
    have hf : "fazit" ∈ doc.sections.map Prod.fst :=
      h6 _ (by simp [sixRequiredKeys])
    have hl : "literatur" ∈ doc.sections.map Prod.fst :=
      h6 _ (by simp [sixRequiredKeys])
    have hmiss : RequiredChaptersRule_REQUIRED.filter
        (fun k => !((doc.sections.map Prod.fst).contains k)) = ["theorie"] := by
      simp [RequiredChaptersRule_REQUIRED, List.filter, he, hm, hr, hd, hf,
        hl, hth]
    refine ⟨some ("Gefunden: " ++
      joinOrKeine (pySortedSet (doc.sections.map Prod.fst))), ?_⟩
    simp only [RequiredChaptersRule_run, hmiss]
    rfl
  · intro h7
    have he : "einleitung" ∈ doc.sections.map Prod.fst :=
      h7 _ (by simp [RequiredChaptersRule_REQUIRED])
    have hth : "theorie" ∈ doc.sections.map Prod.fst :=
      h7 _ (by simp [RequiredChaptersRule_REQUIRED])
    have hm : "methode" ∈ doc.sections.map Prod.fst :=
      h7 _ (by simp [RequiredChaptersRule_REQUIRED])
    have hr : "ergebnisse" ∈ doc.sections.map Prod.fst :=
      h7 _ (by simp [RequiredChaptersRule_REQUIRED])
    have hd : "diskussion" ∈ doc.sections.map Prod.fst :=
      h7 _ (by simp [RequiredChaptersRule_REQUIRED])
    have hf : "fazit" ∈ doc.sections.map Prod.fst :=
      h7 _ (by simp [RequiredChaptersRule_REQUIRED])
    have hl : "literatur" ∈ doc.sections.map Prod.fst :=
      h7 _ (by simp [RequiredChaptersRule_REQUIRED])
    have hmiss : RequiredChaptersRule_REQUIRED.filter
        (fun k => !((doc.sections.map Prod.fst).contains k)) = [] := by
      simp [RequiredChaptersRule_REQUIRED, List.filter, he, hth, hm, hr, hd,
        hf, hl]
    refine ⟨some ("Kapitel: " ++
      String.intercalate ", " (pySortedSet (doc.sections.map Prod.fst))), ?_⟩
    simp only [RequiredChaptersRule_run, hmiss]
    rfl

def mkPlainEntries (texts : List String) : List (ParaData × Bool) :=
  texts.map (fun t => (⟨t, "", none⟩, false))

/-- The end-to-end scenario document of the claim: headings
`1 Einleitung` … `6 Literaturverzeichnis`, no `Theorie` chapter. -/
def c1docA : DocumentModel :=
  extract_docx_from_entries "scenario.docx"
    (mkPlainEntries ["1 Einleitung", "2 Methode", "3 Ergebnisse",
      "4 Diskussion", "5 Fazit", "6 Literaturverzeichnis"]) 0

/-- The same scenario with a `Theorie` chapter added (all seven keys). -/
def c1docB : DocumentModel :=
  extract_docx_from_entries "scenario.docx"
    (mkPlainEntries ["1 Einleitung", "2 Theorie", "3 Methode",
      "4 Ergebnisse", "5 Diskussion", "6 Fazit",
      "7 Literaturverzeichnis"]) 0

/-- Witness for C1 on the two concrete scenario documents. -/
theorem c1_required_chapters_witness :
    (∃ ev, RequiredChaptersRule_run c1docA none =
      [⟨"STRUCT-007", "Struktur", "error",
        "Fehlende Pflichtkapitel: theorie", ev⟩]) ∧
    (∃ ev, RequiredChaptersRule_run c1docB none =
      [⟨"STRUCT-007", "Struktur", "info",
        "Alle Pflichtkapitel wurden gefunden.", ev⟩]) :=
  ⟨(c1_required_chapters c1docA none).1 (by decide) (by decide),
   (c1_required_chapters c1docB none).2 (by decide)⟩

/-! ### C9 — section-key matching discipline -/

theorem strict_keywords_mem :
    ∀ key ∈ STRICT_ONLY_KEYS, (key, keywordsOf key) ∈ SECTION_KEYWORDS := by
  decide

theorem strict_prefix_disjoint :
    ∀ key ∈ PREFIX_OK_KEYS, key ∉ STRICT_ONLY_KEYS := by decide

theorem strictExactKey_spec (t : String) (k : String)
    (h : strictExactKey t = some k) :
    k ∈ STRICT_ONLY_KEYS ∧ ∃ kw ∈ keywordsOf k, t = normalize_title kw := by
  refine ⟨List.mem_of_find?_eq_some h, ?_⟩
  have := List.find?_some h
  simpa [List.any_eq_true] using this

theorem otherExactKey_spec (t : String) (k : String)
    (h : otherExactKey t = some k) :
    ∃ p ∈ SECTION_KEYWORDS, p.1 = k ∧ k ∉ STRICT_ONLY_KEYS ∧
      ∃ kw ∈ p.2, t = normalize_title kw := by
  simp only [otherExactKey, Option.map_eq_some'] at h
  obtain ⟨p, hfind, hpk⟩ := h
  have hmem := List.mem_of_find?_eq_some hfind
  have hpred := List.find?_some hfind
  have hfil := List.mem_filter.mp hmem
  refine ⟨p, hfil.1, hpk, ?_, ?_⟩
  · have hnm : p.1 ∉ STRICT_ONLY_KEYS := by simpa using hfil.2
    simpa [hpk] using hnm
  · simpa [List.any_eq_true] using hpred

theorem prefixMatchKey_spec (t : String) (k : String)
    (h : prefixMatchKey t = some k) : k ∈ PREFIX_OK_KEYS :=
  List.mem_of_find?_eq_some h

/-- C9: a strict-only key (`abstract`, `abkuerzungen`, `ergebnisse`,
`diskussion`, `literatur`) is returned only when the normalized title
exactly equals one of that key's keywords; and any resolution that is not
an exact keyword match (prefix tier or theory catch-all) happens only for
a top-level heading (level 1, or a number without dots) and only yields
one of the prefix-allowed keys `einleitung`, `theorie`, `methode`,
`fazit`. -/
theorem c9_section_key_matching (title : String) (level : Option Nat)
    (number : Option String) (k : String)
    (h : find_section_key title level number = some k) :
    (k ∈ STRICT_ONLY_KEYS →
      ∃ kw ∈ keywordsOf k, normalize_title title = normalize_title kw) ∧
    ((¬ ∃ p ∈ SECTION_KEYWORDS, ∃ kw ∈ p.2,
        normalize_title title = normalize_title kw) →
      (level = some 1 ∨ ∃ s, number = some s ∧ '.' ∉ s.data) ∧
      k ∈ PREFIX_OK_KEYS) := by
  simp only [find_section_key] at h
  split at h
  · exact absurd h (by simp)
  · split at h
    · exact absurd h (by simp)
    · split at h
      next key hfind =>
        injection h with h2
        rw [← h2]
        obtain ⟨hks, kw, hkw, hkeq⟩ := strictExactKey_spec _ _ hfind
        exact ⟨fun _ => ⟨kw, hkw, hkeq⟩,
          fun hnex => absurd ⟨(key, keywordsOf key),
            strict_keywords_mem key hks, kw, hkw, hkeq⟩ hnex⟩
      next hstrictnone =>
        split at h
        next key hfind =>
          injection h with h2
          rw [← h2]
          obtain ⟨p, hpmem, hpk, hknotstrict, kw, hkw, hkeq⟩ :=
            otherExactKey_spec _ _ hfind
          exact ⟨fun hks => absurd hks hknotstrict,
            fun hnex => absurd ⟨p, hpmem, kw, hkw, hkeq⟩ hnex⟩
        next hothernone =>
          split at h
          next htop =>
            have htopP : level = some 1 ∨
                ∃ s, number = some s ∧ '.' ∉ s.data := by
              simp only [isTopLevelOf, Bool.or_eq_true, beq_iff_eq] at htop
              rcases htop with h1 | h2
              · exact Or.inl h1
              · right
                match number, h2 with
                | some s, h2 =>
                  simp only [Bool.and_eq_true, Bool.not_eq_true',
                    beq_iff_eq, List.all_eq_true] at h2
                  refine ⟨s, rfl, fun hdot => ?_⟩
                  have := h2.2 '.' hdot
                  simp at this
            split at h
            next key hfind =>
              injection h with h2
              rw [← h2]
              have hkp := prefixMatchKey_spec _ _ hfind
              exact ⟨fun hks => absurd hks (strict_prefix_disjoint key hkp),
                fun _ => ⟨htopP, hkp⟩⟩
            next hprefnone =>
              split at h
              · injection h with h2
                rw [← h2]
                exact ⟨fun hks => absurd hks (by decide),
                  fun _ => ⟨htopP, by decide⟩⟩
              · exact absurd h (by simp)
          next htopfalse => exact absurd h (by simp)


/-- Witness for C9: `"Einleitung und Motivation"` at level 1 resolves (by
prefix, not exact match) to `einleitung`, a prefix-allowed key, at top
level. -/
theorem c9_section_key_matching_witness :
    find_section_key "Einleitung und Motivation" (some 1) none =
      some "einleitung" ∧
    (((some 1 : Option Nat) = some 1 ∨
      ∃ s, (none : Option String) = some s ∧ '.' ∉ s.data) ∧
     "einleitung" ∈ PREFIX_OK_KEYS) := by
  have h : find_section_key "Einleitung und Motivation" (some 1) none =
      some "einleitung" := by decide
  have hnex : ¬ ∃ p ∈ SECTION_KEYWORDS, ∃ kw ∈ p.2,
      normalize_title "Einleitung und Motivation" = normalize_title kw := by
    decide
  exact ⟨h, (c9_section_key_matching _ _ _ _ h).2 hnex⟩

/-! ### C4 — section uniqueness and first-heading-wins -/

theorem buildGo_keys_nodup (ps : List String) :
    ∀ (hs : List Heading) (done : List (String × Section)),
      (done.map Prod.fst).Nodup → ((buildGo ps done hs).map Prod.fst).Nodup := by
  intro hs
  induction hs with
  | nil => intro done hd; simpa [buildGo] using hd
  | cons h rest ih =>
    intro done hd
    simp only [buildGo]
    split
    · exact ih done hd
    · split
      · exact ih done hd
      · next k hk hcont =>
        apply ih
        have hnotin : k ∉ done.map Prod.fst := by simpa using hcont
        simp only [List.map_append, List.map_cons, List.map_nil]
        rw [← List.concat_eq_append]
        exact (hd.concat hnotin)

theorem buildGo_mem_spec (ps : List String) :
    ∀ (hs : List Heading) (done : List (String × Section)) (k : String)
      (s : Section), (k, s) ∈ buildGo ps done hs →
      (k, s) ∈ done ∨
      (k ∉ done.map Prod.fst ∧
        ∃ pre h post, hs = pre ++ h :: post ∧
          sectionKeyOfHeading h = some k ∧ s = mkSection ps k h post ∧
          ∀ h2 ∈ pre, sectionKeyOfHeading h2 ≠ some k) := by
  intro hs
  induction hs with
  | nil =>
    intro done k s hmem
    left
    simpa [buildGo] using hmem
  | cons h rest ih =>
    intro done k s hmem
    simp only [buildGo] at hmem
    split at hmem
    · next hnone =>
      rcases ih done k s hmem with hl | ⟨hnotin, pre, hh, post, heq, hkey, hs', hpre⟩
      · exact Or.inl hl
      · right
        refine ⟨hnotin, h :: pre, hh, post, by simp [heq], hkey, hs', ?_⟩
        intro h2 hh2
        rcases List.mem_cons.mp hh2 with rfl | hh2'
        · rw [hnone]; simp
        · exact hpre h2 hh2'
    · split at hmem
      · next k0 hk0 hcont =>
        rcases ih done k s hmem with hl | ⟨hnotin, pre, hh, post, heq, hkey, hs', hpre⟩
        · exact Or.inl hl
        · right
          refine ⟨hnotin, h :: pre, hh, post, by simp [heq], hkey, hs', ?_⟩
          intro h2 hh2
          rcases List.mem_cons.mp hh2 with rfl | hh2'
          · rw [hk0]
            intro hx
            apply hnotin
            have : k0 = k := by simpa using hx
            rw [← this]
            simpa using hcont
          · exact hpre h2 hh2'
      · next k0 hk0 hcont =>
        have hnotin0 : k0 ∉ done.map Prod.fst := by simpa using hcont
        rcases ih (done ++ [(k0, mkSection ps k0 h rest)]) k s hmem with
          hl | ⟨hnotin, pre, hh, post, heq, hkey, hs', hpre⟩
        · rcases List.mem_append.mp hl with hd | hnew
          · exact Or.inl hd
          · right
            have hpair : k = k0 ∧ s = mkSection ps k0 h rest := by
              simpa using hnew
            obtain ⟨hpk, hps⟩ := hpair
            subst hpk
            refine ⟨hnotin0, [], h, rest, rfl, hk0, hps, ?_⟩
            intro h2 hh2
            simp at hh2
        · right
          have hknotin : k ∉ done.map Prod.fst := by
            intro hx
            apply hnotin
            simp [hx]
          have hkne : k ≠ k0 := by
            intro hx
            apply hnotin
            simp [hx]
          refine ⟨hknotin, h :: pre, hh, post, by simp [heq], hkey, hs', ?_⟩
          intro h2 hh2
          rcases List.mem_cons.mp hh2 with rfl | hh2'
          · rw [hk0]
            intro hx
            have hx2 : k0 = k := by simpa using hx
            exact hkne hx2.symm
          · exact hpre h2 hh2'

/-- C4: the section map has pairwise distinct keys (at most one Section
per key); each entry is built from a heading resolving to that key whose
`para_index` is minimal among all same-key headings (the first in document
order wins, later same-key headings contribute nothing); and the assembled
model keeps the full extracted heading list unchanged by segmentation. -/
theorem c4_sections_unique_first_wins (ps : List String) (hs : List Heading) :
    ((build_sections ps hs).map Prod.fst).Nodup ∧
    (∀ k s, (k, s) ∈ build_sections ps hs →
      ∃ h ∈ hs, sectionKeyOfHeading h = some k ∧ s.key = k ∧
        s.title = h.text ∧ s.start_para = h.para_index + 1 ∧
        ∀ h2 ∈ hs, sectionKeyOfHeading h2 = some k →
          h.para_index ≤ h2.para_index) ∧
    (∀ fn entries tc, (extract_docx_from_entries fn entries tc).headings =
      (extractFromEntries entries).2) := by
  refine ⟨buildGo_keys_nodup ps _ [] (by simp), ?_, ?_⟩
  · intro k s hmem
    rcases buildGo_mem_spec ps _ [] k s hmem with
      hl | ⟨_, pre, h, post, heq, hkey, hs', hpre⟩
    · simp at hl
    · have hperm := List.perm_insertionSort headingLe hs
      have hsorted := List.sorted_insertionSort headingLe hs
      have hmemh : h ∈ hs := by
        apply hperm.mem_iff.mp
        rw [heq]
        simp
      refine ⟨h, hmemh, hkey, by rw [hs']; simp [mkSection], by rw [hs']; simp [mkSection], by rw [hs']; simp [mkSection], ?_⟩
      intro h2 hh2 hkey2
      have hh2' : h2 ∈ hs.insertionSort headingLe := hperm.mem_iff.mpr hh2
      rw [heq] at hh2' hsorted
      rcases List.mem_append.mp hh2' with hpre2 | hrest
      · exact absurd hkey2 (hpre h2 hpre2)
      · rcases List.mem_cons.mp hrest with rfl | hpost
        · exact Nat.le_refl _
        · have hsorted2 : List.Sorted headingLe (h :: post) :=
            hsorted.sublist (List.sublist_append_right pre (h :: post))
          exact List.rel_of_sorted_cons hsorted2 h2 hpost
  · intro fn entries tc
    rfl


def c4psW : List String := []

def c4hsW : List Heading :=
  [⟨"Literaturverzeichnis", 1, some "6", 1⟩, ⟨"Quellen", 1, none, 3⟩]

def c4secW : Section := ⟨"literatur", "Literaturverzeichnis", 2, 2, "", 0⟩

/-- Witness for C4: with two headings both resolving to `literatur`, only
the first (paragraph 1) produces the Section entry. -/
theorem c4_sections_witness :
    ("literatur", c4secW) ∈ build_sections c4psW c4hsW ∧
    ∃ h ∈ c4hsW, sectionKeyOfHeading h = some "literatur" ∧
      c4secW.key = "literatur" ∧ c4secW.title = h.text ∧
      c4secW.start_para = h.para_index + 1 ∧
      ∀ h2 ∈ c4hsW, sectionKeyOfHeading h2 = some "literatur" →
        h.para_index ≤ h2.para_index := by
  have hmem : ("literatur", c4secW) ∈ build_sections c4psW c4hsW := by decide
  exact ⟨hmem, (c4_sections_unique_first_wins c4psW c4hsW).2.1 _ _ hmem⟩

/-! ### C7 — TOC range detector -/

def tocStop (ps : List String) (maxScan j : Nat) : Prop :=
  5 ≤ tocNonTocCount ps maxScan j

instance (ps : List String) (maxScan j : Nat) :
    Decidable (tocStop ps maxScan j) :=
  inferInstanceAs (Decidable (5 ≤ tocNonTocCount ps maxScan j))

theorem firstIdx_none_iff (p : String → Bool) :
    ∀ l : List String, firstIdx p l = none ↔ ∀ x ∈ l, p x = false := by
  intro l
  induction l with
  | nil => simp [firstIdx]
  | cons x xs ih =>
    simp only [firstIdx]
    by_cases hx : p x
    · simp [hx]
    · simp only [Bool.not_eq_true] at hx
      simp [hx, ih]

theorem firstIdx_some_spec (p : String → Bool) :
    ∀ (l : List String) (i : Nat), firstIdx p l = some i →
      (∃ x, l.get? i = some x ∧ p x = true) ∧
      ∀ j, j < i → ∀ y, l.get? j = some y → p y = false := by
  intro l
  induction l with
  | nil => intro i h; simp [firstIdx] at h
  | cons x xs ih =>
    intro i h
    simp only [firstIdx] at h
    by_cases hx : p x
    · rw [if_pos hx] at h
      obtain rfl : (0 : Nat) = i := by simpa using h
      exact ⟨⟨x, rfl, hx⟩, fun j hj => by omega⟩
    · rw [if_neg hx] at h
      simp only [Option.map_eq_some'] at h
      obtain ⟨i0, hi0, rfl⟩ := h
      obtain ⟨⟨y, hy, hpy⟩, hmin⟩ := ih i0 hi0
      refine ⟨⟨y, by simpa using hy, hpy⟩, ?_⟩
      intro j hj z hz
      match j with
      | 0 =>
        simp only [List.get?_cons_zero, Option.some.injEq] at hz
        rw [← hz]
        simpa using hx
      | j0 + 1 =>
        exact hmin j0 (by omega) z (by simpa using hz)

theorem tocScanGo_spec (ps : List String) (maxScan s : Nat) :
    ∀ (fuel j : Nat), j + fuel = maxScan →
      (j ≤ tocScanGo ps maxScan s fuel j ∧
        tocScanGo ps maxScan s fuel j < maxScan ∧
        tocStop ps maxScan (tocScanGo ps maxScan s fuel j) ∧
        ∀ i, j ≤ i → i < tocScanGo ps maxScan s fuel j →
          ¬ tocStop ps maxScan i) ∨
      ((∀ i, j ≤ i → i < maxScan → ¬ tocStop ps maxScan i) ∧
        tocScanGo ps maxScan s fuel j = min ps.length (s + 250)) := by
  intro fuel
  induction fuel with
  | zero =>
    intro j hj
    right
    exact ⟨fun i hi1 hi2 => by omega, rfl⟩
  | succ f ih =>
    intro j hj
    simp only [tocScanGo]
    by_cases hstop : tocStop ps maxScan j
    · left
      have hw : ¬ (tocWindow ps maxScan j).isEmpty := by
        intro hemp
        have : tocNonTocCount ps maxScan j = 0 := by
          simp only [tocNonTocCount]
          rw [List.isEmpty_iff] at hemp
          rw [hemp]
          rfl
        simp only [tocStop, this] at hstop
        omega
      rw [if_neg hw, if_pos (show 5 ≤ tocNonTocCount ps maxScan j from hstop)]
      exact ⟨Nat.le_refl j, by omega, hstop, fun i h1 h2 => by omega⟩
    · have step : ∀ r, tocScanGo ps maxScan s f (j + 1) = r →
          (if (tocWindow ps maxScan j).isEmpty then
            tocScanGo ps maxScan s f (j + 1)
          else if 5 ≤ tocNonTocCount ps maxScan j then j
          else tocScanGo ps maxScan s f (j + 1)) = r := by
        intro r hr
        by_cases hw : (tocWindow ps maxScan j).isEmpty
        · rw [if_pos hw]; exact hr
        · rw [if_neg hw, if_neg (show ¬ 5 ≤ tocNonTocCount ps maxScan j from hstop)]
          exact hr
      rcases ih (j + 1) (by omega) with ⟨h1, h2, h3, h4⟩ | ⟨h1, h2⟩
      · left
        refine ⟨?_, ?_, ?_, ?_⟩ <;>
          rw [step _ rfl]
        · omega
        · exact h2
        · exact h3
        · intro i hi1 hi2
          by_cases hij : i = j
          · rw [hij]; exact hstop
          · exact h4 i (by omega) hi2
      · right
        refine ⟨?_, by rw [step _ rfl]; exact h2⟩
        intro i hi1 hi2
        by_cases hij : i = j
        · rw [hij]; exact hstop
        · exact h1 i (by omega) hi2

/-- C7 (amended): the TOC range starts at the first paragraph normalising
to `inhaltsverzeichnis` (no such paragraph: no range); the scan inspects,
at each position `j` past the start, the window of the up-to-8 next
paragraphs with the empty ones dropped, is capped at 500 paragraphs past
the start, ends at the first `j` whose window holds 5 or more
non-TOC-like paragraphs, and falls back to 250 paragraphs past the start
(clamped to the document length) when no window terminates it. -/
theorem c7_toc_range_amended (ps : List String) :
    (find_toc_range ps = none ↔
      ∀ p ∈ ps, normalize_simple p ≠ "inhaltsverzeichnis") ∧
    (∀ s e, find_toc_range ps = some (s, e) →
      ((∃ p, ps.get? s = some p ∧ normalize_simple p = "inhaltsverzeichnis") ∧
        (∀ j, j < s → ∀ q, ps.get? j = some q →
          normalize_simple q ≠ "inhaltsverzeichnis")) ∧
      ((s + 1 ≤ e ∧ e < min ps.length (s + 500) ∧
          tocStop ps (min ps.length (s + 500)) e ∧
          ∀ j, s + 1 ≤ j → j < e →
            ¬ tocStop ps (min ps.length (s + 500)) j) ∨
        ((∀ j, s + 1 ≤ j → j < min ps.length (s + 500) →
            ¬ tocStop ps (min ps.length (s + 500)) j) ∧
          e = min ps.length (s + 250)))) := by
  constructor
  · simp only [find_toc_range]
    constructor
    · intro h
      match hf : firstIdx
          (fun p => normalize_simple p == "inhaltsverzeichnis") ps with
      | none =>
        intro p hp
        have := (firstIdx_none_iff _ ps).mp hf p hp
        simpa using this
      | some s => rw [hf] at h; simp at h
    · intro hall
      match hf : firstIdx
          (fun p => normalize_simple p == "inhaltsverzeichnis") ps with
      | none => rfl
      | some s =>
        exfalso
        obtain ⟨⟨p, hps, hpp⟩, _⟩ := firstIdx_some_spec _ ps s hf
        exact hall p (List.get?_mem hps) (by simpa using hpp)
  · intro s e h
    simp only [find_toc_range] at h
    match hf : firstIdx
        (fun p => normalize_simple p == "inhaltsverzeichnis") ps with
    | none => rw [hf] at h; simp at h
    | some s0 =>
      rw [hf] at h
      simp only [Option.some.injEq, Prod.mk.injEq] at h
      obtain ⟨rfl, he⟩ := h
      obtain ⟨⟨p, hps, hpp⟩, hmin⟩ := firstIdx_some_spec _ ps s0 hf
      refine ⟨⟨⟨p, hps, by simpa using hpp⟩, ?_⟩, ?_⟩
      · intro j hj q hq
        have := hmin j hj q hq
        simpa using this
      · have hlen : s0 < ps.length := by
          by_contra hge
          rw [List.get?_eq_none.mpr (by omega)] at hps
          exact Option.noConfusion hps
        have := tocScanGo_spec ps (min ps.length (s0 + 500)) s0
          (min ps.length (s0 + 500) - (s0 + 1)) (s0 + 1) (by omega)
        rw [he] at this
        rcases this with ⟨h1, h2, h3, h4⟩ | ⟨h1, h2⟩
        · exact Or.inl ⟨h1, h2, h3, h4⟩
        · exact Or.inr ⟨h1, h2⟩

/-- Modelled from the claim's wording, for refinement comparison only: the
window at `j` is the next **8 non-empty paragraphs** (rather than the
non-empty members of the next 8 paragraphs). -/
def spec_tocWindow (ps : List String) (maxScan j : Nat) : List String :=
  (((ps.drop j).take (maxScan - j)).filter
    (fun x => !(normalize_simple x == ""))).take 8

def spec_tocScanGo (ps : List String) (maxScan tocStart : Nat) :
    Nat → Nat → Nat
  | 0, _ => min ps.length (tocStart + 250)
  | fuel + 1, j =>
    let w := spec_tocWindow ps maxScan j
    if w.isEmpty then spec_tocScanGo ps maxScan tocStart fuel (j + 1)
    else if 5 ≤ (w.filter (fun x => !looks_like_toc_line x)).length then j
    else spec_tocScanGo ps maxScan tocStart fuel (j + 1)

def spec_find_toc_range (ps : List String) : Option (Nat × Nat) :=
  match firstIdx (fun p => normalize_simple p == "inhaltsverzeichnis") ps with
  | none => none
  | some s =>
    let maxScan := min ps.length (s + 500)
    some (s, spec_tocScanGo ps maxScan s (maxScan - (s + 1)) (s + 1))

def c7exPs : List String :=
  ["Inhaltsverzeichnis", "", "", "", "", "Alpha beta", "Gamma delta",
   "Epsilon zeta", "Eta theta", "Iota kappa"]

/-- Counterexample for C7 as stated: on a TOC whose first window positions
cover four empty paragraphs, the detector built from the claim's literal
wording ("windows of 8 non-empty paragraphs") ends the range at 1 while
the code ends it at 2. -/
theorem c7_window_counterexample :
    spec_find_toc_range c7exPs = some (0, 1) ∧
    find_toc_range c7exPs = some (0, 2) ∧
    spec_find_toc_range c7exPs ≠ find_toc_range c7exPs := by
  refine ⟨by decide, by decide, by decide⟩

/-- Witness for C7 (amended) at the counterexample document: the range is
`(0, 2)` and satisfies the least-terminating-window characterisation. -/
theorem c7_toc_range_witness :
    find_toc_range c7exPs = some (0, 2) ∧
    (((∃ p, c7exPs.get? 0 = some p ∧
        normalize_simple p = "inhaltsverzeichnis") ∧
      (∀ j, j < 0 → ∀ q, c7exPs.get? j = some q →
        normalize_simple q ≠ "inhaltsverzeichnis")) ∧
     ((0 + 1 ≤ 2 ∧ 2 < min c7exPs.length (0 + 500) ∧
        tocStop c7exPs (min c7exPs.length (0 + 500)) 2 ∧
        ∀ j, 0 + 1 ≤ j → j < 2 →
          ¬ tocStop c7exPs (min c7exPs.length (0 + 500)) j) ∨
      ((∀ j, 0 + 1 ≤ j → j < min c7exPs.length (0 + 500) →
          ¬ tocStop c7exPs (min c7exPs.length (0 + 500)) j) ∧
        2 = min c7exPs.length (0 + 250)))) := by
  have h : find_toc_range c7exPs = some (0, 2) := by decide
  exact ⟨h, (c7_toc_range_amended c7exPs).2 0 2 h⟩

/-! ### C8 — body walker -/

mutual
theorem walkNode_map_fst (n : XNode) (b : Bool) :
    (walkNode n b).map Prod.fst = docParasNode n := by
  cases n with
  | para d => rfl
  | tbl f => simpa [walkNode, docParasNode] using walkForest_map_fst f true
  | other f => simpa [walkNode, docParasNode] using walkForest_map_fst f b

theorem walkForest_map_fst (f : XForest) (b : Bool) :
    (walkForest f b).map Prod.fst = docParasForest f := by
  cases f with
  | nil => rfl
  | cons n g =>
    simp only [walkForest, docParasForest, List.map_append]
    rw [walkNode_map_fst n b, walkForest_map_fst g b]
end

mutual
theorem walkNode_eq_tag (n : XNode) (anc : List XTag) (b : Bool)
    (hb : b = anc.contains XTag.tbl) :
    walkNode n b = (tagNode n anc).map (fun x => (x.1, x.2.contains XTag.tbl)) := by
  cases n with
  | para d => simp [walkNode, tagNode, hb]
  | tbl f =>
    simp only [walkNode, tagNode]
    exact walkForest_eq_tag f (XTag.tbl :: anc) true (by simp)
  | other f =>
    simp only [walkNode, tagNode]
    exact walkForest_eq_tag f (XTag.other :: anc) b (by simpa using hb)

theorem walkForest_eq_tag (f : XForest) (anc : List XTag) (b : Bool)
    (hb : b = anc.contains XTag.tbl) :
    walkForest f b = (tagForest f anc).map (fun x => (x.1, x.2.contains XTag.tbl)) := by
  cases f with
  | nil => rfl
  | cons n g =>
    simp only [walkForest, tagForest, List.map_append]
    rw [walkNode_eq_tag n anc b hb, walkForest_eq_tag g anc b hb]
end

theorem extractGo_paragraphs :
    ∀ (entries : List (ParaData × Bool)) (idx : Nat) (counts : Nat → Nat),
      (extractGo entries idx counts).1 = entries.map (fun e => e.1.text) := by
  intro entries
  induction entries with
  | nil => intro idx counts; rfl
  | cons e rest ih =>
    intro idx counts
    obtain ⟨d, inTable⟩ := e
    simp only [extractGo, List.map_cons]
    split
    · next htext => simp [ih, htext]
    · split
      · simp [ih]
      · simp only []
        split <;> simp [ih]

theorem extractGo_headings_source :
    ∀ (entries : List (ParaData × Bool)) (idx : Nat) (counts : Nat → Nat),
      ∀ h ∈ (extractGo entries idx counts).2,
        ∃ j e, entries.get? j = some e ∧ e.2 = false ∧
          h.para_index = idx + j := by
  intro entries
  induction entries with
  | nil => intro idx counts h hmem; simp [extractGo] at hmem
  | cons e rest ih =>
    intro idx counts h hmem
    obtain ⟨d, inTable⟩ := e
    simp only [extractGo] at hmem
    split at hmem
    · obtain ⟨j, e2, he2, hf, hp⟩ := ih (idx + 1) counts h hmem
      exact ⟨j + 1, e2, by simpa using he2, hf, by omega⟩
    · split at hmem
      · next hin =>
        obtain ⟨j, e2, he2, hf, hp⟩ := ih (idx + 1) counts h hmem
        exact ⟨j + 1, e2, by simpa using he2, hf, by omega⟩
      · next hin =>
        simp only [Bool.not_eq_true] at hin
        repeat' split at hmem
        all_goals
          first
          | (rcases List.mem_cons.mp hmem with rfl | hmem2
             · exact ⟨0, (d, inTable), rfl, by simpa using hin, by simp⟩
             · obtain ⟨j, e2, he2, hf, hp⟩ := ih (idx + 1) _ h hmem2
               exact ⟨j + 1, e2, by simpa using he2, hf, by omega⟩)
          | (obtain ⟨j, e2, he2, hf, hp⟩ := ih (idx + 1) _ h hmem
             exact ⟨j + 1, e2, by simpa using he2, hf, by omega⟩)

/-- C8: the body walk yields exactly the paragraphs in document order (its
first components are the pre-order paragraph list); the `in_table` flag of
each yielded paragraph is `true` iff the list of its ancestor containers
contains a table; and the extraction loop appends every walked
paragraph's text to the paragraph sequence while producing headings only
from entries whose flag is `false`. -/
theorem c8_walk_order_flags :
    (∀ f : XForest, (walkForest f false).map Prod.fst = docParasForest f) ∧
    (∀ f : XForest, walkForest f false =
      (tagForest f []).map (fun x => (x.1, x.2.contains XTag.tbl))) ∧
    (∀ entries : List (ParaData × Bool),
      (extractGo entries 0 (fun _ => 0)).1 =
        entries.map (fun e => e.1.text) ∧
      ∀ h ∈ (extractGo entries 0 (fun _ => 0)).2,
        ∃ e, entries.get? h.para_index = some e ∧ e.2 = false) := by
  refine ⟨fun f => walkForest_map_fst f false,
    fun f => walkForest_eq_tag f [] false rfl, ?_⟩
  intro entries
  refine ⟨extractGo_paragraphs entries 0 _, ?_⟩
  intro h hmem
  obtain ⟨j, e, he, hf, hp⟩ := extractGo_headings_source entries 0 _ h hmem
  simp only [Nat.zero_add] at hp
  rw [hp]
  exact ⟨e, he, hf⟩

def c8entriesW : List (ParaData × Bool) :=
  [(⟨"1 Tabellenzelle", "", none⟩, true), (⟨"1 Einleitung", "", none⟩, false)]

def c8headW : Heading := ⟨"Einleitung", 1, some "1", 1⟩

/-- Witness for C8: in a walk where the first paragraph sits in a table,
the single produced heading comes from the second, non-table entry. -/
theorem c8_walk_order_flags_witness :
    c8headW ∈ (extractGo c8entriesW 0 (fun _ => 0)).2 ∧
    ∃ e, c8entriesW.get? c8headW.para_index = some e ∧ e.2 = false := by
  have hmem : c8headW ∈ (extractGo c8entriesW 0 (fun _ => 0)).2 := by decide
  exact ⟨hmem, (c8_walk_order_flags.2.2 c8entriesW).2 c8headW hmem⟩

/-! ### C2 — every registered rule returns a non-empty Finding list -/

/-- A `DocumentModel` has *good heading numbers* when every truthy heading
number string parses without `ValueError` to at least one numeric
component.  Every model built by `extract_docx` satisfies this (its heading
numbers are either regex matches made of decimal digit groups or
synthesized counters), but the Python type `DocumentModel` itself does not
enforce it: a number with no digit component (e.g. `"x"`) parses to `[]`,
and a number with a digit-class but non-decimal component (e.g. `"1.²"`)
makes `int()` raise `ValueError`. -/
def GoodHeadingNumbers (doc : DocumentModel) : Prop :=
  ∀ h ∈ doc.headings, ∀ s, h.number = some s → s ≠ "" →
    ∃ parts, parse_number_str s = Except.ok parts ∧ parts ≠ []

/-- A `DocumentModel` with one heading numbered `"1.²"`: the component
`"²"` passes Python's `isdigit` but `int("²")` raises `ValueError`, so
`HeadingHierarchyRule.run` raises instead of returning Findings. -/
def c2ValueErrorDoc : DocumentModel :=
  ⟨"bad2.docx", [], [⟨"A", 2, some "1.²", 0⟩], [], 0, 0, [], [], ⟨0, 0, 0⟩⟩

theorem c2ValueError_example :
    HeadingHierarchyRule_run c2ValueErrorDoc none =
      Except.error "ValueError: invalid literal for int() with base 10: ²" :=
  rfl

theorem c2ValueErrorDoc_not_good : ¬ GoodHeadingNumbers c2ValueErrorDoc := by
  intro hg
  obtain ⟨parts, hp, -⟩ :=
    hg ⟨"A", 2, some "1.²", 0⟩ (List.mem_singleton.mpr rfl) "1.²" rfl
      (by decide)
  exact Except.noConfusion ((rfl :
    parse_number_str "1.²" =
      Except.error "ValueError: invalid literal for int() with base 10: ²").symm.trans hp)

